import Mathlib

/-!
Shallow embedding of the alumni matching engine of AlumniVerse Pro.

Source files modelled here:
* src/lib/ai/alumniMatcher.ts — class AlumniMatchingEngine (namespace
  AlumniMatchingEngine below) and class IntelligentMatchingEngine
  (namespace IntelligentMatchingEngine below);
* src/app/api/ai/match/route.ts — the AI match API route (namespace
  MatchRoute below).

Modelling conventions:
* JavaScript numbers are modelled by exact rationals (ℚ) where the code
  performs field arithmetic and comparisons, and by ℝ where a square root
  enters (cosine similarity).  Floating-point rounding is not modelled.
* A JavaScript NaN/Infinity value arising from division by a zero
  denominator is modelled by an Option: none stands for the non-real
  result.  A NaN score never passes the strict comparison
  score > 0.3 in JavaScript, and correspondingly a none score never
  passes the model's filter.
* The TS union type StudentProfile | AlumniProfile is the sum type
  Seeker; a JavaScript membership test such as
  a key in seeker is a pattern match on the sum.  Optional TS fields
  are Option; a field that is present but undefined is identified with
  an absent field (they are observationally equal in all code paths
  modelled here, via the x || fallback idiom).
* External effects are parameters: the embedding provider
  (generateProfileEmbedding) is a parameter embed of type
  String → List ℚ, instantiated with getMockEmbedding for the shipped
  demo configuration; the insight generator (generateMatchInsights,
  which calls an LLM or Math.random) is a parameter ins; each
  Math.random() call in getFallbackMatches is rand i for the candidate
  index i; a thrown exception inside the body of findMatches is the
  boolean parameter err of findMatches.  The per-id embedding cache is
  modelled as transparent recomputation (the cached value equals the
  recomputed one for distinct alumni ids).
* String.charCodeAt is modelled by the code point of the character
  (identical on the Basic Multilingual Plane).
-/

/-- JavaScript s.includes(sub): sub occurs as a contiguous substring of s. -/
def jsIncludes (s sub : String) : Bool := decide (sub.toList <:+: s.toList)

/-- JavaScript s.toLowerCase(), modelled character-wise (ASCII-faithful). -/
def lowerStr (s : String) : String := ⟨s.data.map Char.toLower⟩

/-- JavaScript s.trim(): strip leading and trailing whitespace (the
locations handled by the code use ASCII whitespace). -/
def trimStr (s : String) : String :=
  ⟨((s.data.dropWhile (fun c => c.toNat ≤ 32)).reverse.dropWhile
      (fun c => c.toNat ≤ 32)).reverse⟩

/-- Helper for splitChar: accumulate the current field (reversed). -/
def splitAux (sep : Char) : List Char → List Char → List String
  | [], acc => [⟨acc.reverse⟩]
  | c :: rest, acc =>
      if c = sep then ⟨acc.reverse⟩ :: splitAux sep rest []
      else splitAux sep rest (c :: acc)

/-- JavaScript s.split(sep) for a single-character separator: always
returns at least one field, keeps empty fields. -/
def splitChar (s : String) (sep : Char) : List String := splitAux sep s.data []

/-- JavaScript array.join(sep). -/
def joinSep (sep : String) : List String → String
  | [] => ""
  | [x] => x
  | x :: rest => x ++ sep ++ joinSep sep rest

/-- Wrap an integer to a signed 32-bit value, as JavaScript ToInt32 does
(the result of the & operator and of << in simpleHash). -/
def toInt32 (n : ℤ) : ℤ :=
  let m := n % 4294967296
  if 2147483648 ≤ m then m - 4294967296 else m

/-- Dot product of two number lists, as computed by the loop
dotProduct += a[i] * b[i] in calculateCosineSimilarity (the loop runs over
the common length; the callers always pass equal-length vectors). -/
def dotList (a b : List ℚ) : ℚ := (List.zipWith (fun x y => x * y) a b).sum

/-- Sum of squares of a vector, the loop normA += a[i] * a[i]. -/
def sumSq (a : List ℚ) : ℚ := dotList a a

/-- Skill record; of the TS Skill interface only the fields read by the
matching code (name, level) are modelled. -/
structure Skill where
  name : String
  level : String
deriving Repr, DecidableEq

/-- StudentProfile: the fields of the TS interface that the matching code
reads.  institutionLocation is user.institution.location (none when the
chain user?.institution?.location is undefined). -/
structure StudentProfile where
  department : String
  careerInterests : List String
  skills : List Skill
  isSeekingMentorship : Bool
  institutionLocation : Option String
deriving Repr, DecidableEq

/-- AlumniProfile: the fields of the TS interface that the matching code
reads. -/
structure AlumniProfile where
  id : String
  department : String
  currentPosition : Option String
  industry : Option String
  workLocation : Option String
  yearsExperience : Option ℚ
  skills : List Skill
  isMentor : Bool
  mentorCategories : List String
  institutionLocation : Option String
deriving Repr, DecidableEq

/-- The TS union StudentProfile | AlumniProfile. -/
inductive Seeker where
  | student (s : StudentProfile)
  | alum (a : AlumniProfile)
deriving Repr, DecidableEq

/-- Both profile interfaces declare a non-optional department, so the test
department in seeker is always true and this is total. -/
def Seeker.department : Seeker → String
  | .student s => s.department
  | .alum a => a.department

/-- Skills of either profile shape. -/
def Seeker.skills : Seeker → List Skill
  | .student s => s.skills
  | .alum a => a.skills

/-- The four criterion kinds of the MatchCriteria TS interface. -/
inductive CriteriaType where
  | career_similarity
  | skill_complement
  | geographic_proximity
  | mentorship_fit
deriving Repr, DecidableEq

/-- A matching criterion: kind and weight. -/
structure MatchCriteria where
  ctype : CriteriaType
  weight : ℚ
deriving Repr, DecidableEq

namespace AlumniMatchingEngine

/-- simpleHash: the 31-ish rolling hash
hash = ((hash << 5) - hash) + charCode; hash = hash & hash
folded over the characters, followed by Math.abs. -/
def simpleHash (str : String) : ℕ :=
  (str.toList.foldl (fun h c => toInt32 (toInt32 (h * 32) - h + c.toNat)) 0).natAbs

/-- getMockEmbedding: the deterministic fallback embedding; 100 entries
(hash + i) % 1000 / 1000 - 0.5. -/
def getMockEmbedding (text : String) : List ℚ :=
  (List.range 100).map (fun i => (((simpleHash text + i) % 1000 : ℕ) : ℚ) / 1000 - 0.5)

/-- getDefaultCriteria: the default criteria list of findMatches. -/
def getDefaultCriteria : List MatchCriteria :=
  [⟨.career_similarity, 0.3⟩, ⟨.skill_complement, 0.25⟩,
   ⟨.mentorship_fit, 0.25⟩, ⟨.geographic_proximity, 0.2⟩]

/-- createProfileText: department, skill names, career interests (students
only), current position and industry (alumni only, when the field is set),
with empty parts dropped and the rest joined by single spaces. -/
def createProfileText (p : Seeker) : String :=
  let base := [p.department, joinSep " " (p.skills.map (·.name))]
  let extra :=
    match p with
    | .student s => [joinSep " " s.careerInterests]
    | .alum a =>
        if a.currentPosition.isSome then [a.currentPosition.getD "", a.industry.getD ""] else []
  joinSep " " ((base ++ extra).filter (· ≠ ""))

/-- inferNeededSkills: the hard-coded careerMap lookup keyed by the
lowercased department, with a generic default. -/
def inferNeededSkills (p : Seeker) : List String :=
  let dept := lowerStr p.department
  if dept = "computer science" then ["react", "python", "aws", "docker", "kubernetes"]
  else if dept = "business" then ["excel", "powerpoint", "sql", "tableau", "salesforce"]
  else if dept = "engineering" then ["autocad", "matlab", "python", "project management"]
  else if dept = "marketing" then
    ["google analytics", "adobe creative suite", "social media", "seo"]
  else ["communication", "leadership", "problem solving"]

/-- extractLocation: workLocation || empty for profiles carrying that field,
otherwise user.institution.location || empty. -/
def extractLocation : Seeker → String
  | .student s => s.institutionLocation.getD ""
  | .alum a =>
      match a.workLocation with
      | some w => w
      | none => a.institutionLocation.getD ""

/-- calculateCareerSimilarity: 0.4 for an equal department, 0.3 per career
interest found inside the lowercased current position or industry (students
only, since only StudentProfile has careerInterests), a decaying experience
bonus (alumni seekers only, since only AlumniProfile has yearsExperience),
clamped to 1. -/
def calculateCareerSimilarity (seeker : Seeker) (alumni : AlumniProfile) : ℚ :=
  let base : ℚ := if seeker.department = alumni.department then 0.4 else 0
  let withInterests : ℚ :=
    match seeker with
    | .student st =>
        let currentRole := lowerStr (alumni.currentPosition.getD "")
        let industry := lowerStr (alumni.industry.getD "")
        st.careerInterests.foldl
          (fun sc itm =>
            if jsIncludes currentRole (lowerStr itm) || jsIncludes industry (lowerStr itm) then
              sc + 0.3
            else sc)
          base
    | .alum _ => base
  let withExperience : ℚ :=
    match seeker with
    | .student _ => withInterests
    | .alum al =>
        match al.yearsExperience with
        | none => withInterests
        | some y =>
            let expDiff := |y - alumni.yearsExperience.getD 0|
            withInterests + max 0 (0.3 - expDiff * 0.05)
  min withExperience 1.0

/-- calculateSkillComplement: 0.4 times the fraction of the seeker's
lowercased skills also owned by the alumni, plus 0.6 times the fraction of
the inferred needed skills list covered by alumni skills (counted with the
multiplicity at which they occur among the alumni's skills). -/
def calculateSkillComplement (seeker : Seeker) (alumni : AlumniProfile) : ℚ :=
  let seekerSkills := seeker.skills.map (fun s => lowerStr s.name)
  let alumniSkills := alumni.skills.map (fun s => lowerStr s.name)
  let overlap := seekerSkills.filter (fun skill => alumniSkills.contains skill)
  let overlapPart : ℚ := (overlap.length : ℚ) / (max seekerSkills.length 1 : ℕ)
  let seekerNeeds := inferNeededSkills seeker
  let complement := alumniSkills.filter (fun skill => seekerNeeds.contains skill)
  let complementPart : ℚ := (complement.length : ℚ) / (max seekerNeeds.length 1 : ℕ)
  overlapPart * 0.4 + complementPart * 0.6

/-- calculateGeographicProximity of AlumniMatchingEngine: 0 when a location
is missing, 1.0 on a case-insensitive exact match, 0.7 when any
comma-separated parts overlap as substrings (either direction), else 0.0. -/
def calculateGeographicProximity (seeker : Seeker) (alumni : AlumniProfile) : ℚ :=
  let seekerLocation := extractLocation seeker
  let alumniLocation := alumni.workLocation.getD ""
  if seekerLocation = "" || alumniLocation = "" then 0
  else if lowerStr seekerLocation = lowerStr alumniLocation then 1.0
  else
    let seekerParts := (splitChar seekerLocation ',').map (fun p => lowerStr (trimStr p))
    let alumniParts := (splitChar alumniLocation ',').map (fun p => lowerStr (trimStr p))
    let commonParts := seekerParts.filter
      (fun part => alumniParts.any (fun ap => jsIncludes ap part || jsIncludes part ap))
    if commonParts.length > 0 then 0.7 else 0.0

/-- Seeker experience as read by calculateMentorshipFit:
yearsExperience || 0 when the profile carries the field, else 0. -/
def seekerExperience : Seeker → ℚ
  | .student _ => 0
  | .alum a => a.yearsExperience.getD 0

/-- Interests used for mentor-category alignment: careerInterests for
students, the department singleton for alumni seekers. -/
def seekerInterests : Seeker → List String
  | .student s => s.careerInterests
  | .alum a => [a.department]

/-- The +0.3 bonus when the seeker is seeking mentorship (only
StudentProfile carries the isSeekingMentorship field). -/
def seekingMentorshipBonus : Seeker → ℚ
  | .student st => if st.isSeekingMentorship then 0.3 else 0
  | .alum _ => 0

/-- The +0.2 bonus when the experience gap
alumni.yearsExperience - seeker experience lies in the optimal band
[3, 15]. -/
def experienceGapBonus (seeker : Seeker) (alumni : AlumniProfile) : ℚ :=
  let expGap : ℚ := alumni.yearsExperience.getD 0 - seekerExperience seeker
  if 3 ≤ expGap ∧ expGap ≤ 15 then 0.2 else 0

/-- The +0.2 bonus when some mentor category and some seeker interest
contain one another (case-insensitive substring in either direction). -/
def mentorCategoryBonus (seeker : Seeker) (alumni : AlumniProfile) : ℚ :=
  let alignment : Bool := alumni.mentorCategories.any (fun category =>
    (seekerInterests seeker).any (fun itm =>
      jsIncludes (lowerStr category) (lowerStr itm) ||
      jsIncludes (lowerStr itm) (lowerStr category)))
  if alumni.mentorCategories ≠ [] ∧ alignment then 0.2 else 0

/-- calculateMentorshipFit of AlumniMatchingEngine: 0 for non-mentors, else
0.5 base, +0.3 when the seeker is seeking mentorship, +0.2 for an
experience gap in [3, 15], +0.2 for a mentor-category/interest substring
alignment, clamped to 1. -/
def calculateMentorshipFit (seeker : Seeker) (alumni : AlumniProfile) : ℚ :=
  if !alumni.isMentor then 0
  else min (0.5 + seekingMentorshipBonus seeker + experienceGapBonus seeker alumni +
    mentorCategoryBonus seeker alumni) 1.0

/-- getTopSkills: sort by level descending (the localeCompare comparator,
modelled by the lexicographic string order), take 3, return the names. -/
def getTopSkills (skills : List Skill) : List String :=
  ((skills.mergeSort (fun a b => decide (b.level ≤ a.level))).take 3).map (·.name)

/-- calculateCosineSimilarity of AlumniMatchingEngine: 0 on a length
mismatch; otherwise dotProduct / (sqrt(normA) * sqrt(normB)) with no guard
on the norms.  A zero norm makes the JavaScript division produce NaN
(dot = 0 there), modelled as none; the guard condition
sumSq a = 0 ∨ sumSq b = 0 is exactly sqrt(normA) * sqrt(normB) = 0 since
both norms are sums of squares. -/
noncomputable def calculateCosineSimilarity (a b : List ℚ) : Option ℝ :=
  if a.length ≠ b.length then some 0
  else if sumSq a = 0 ∨ sumSq b = 0 then none
  else some ((dotList a b : ℚ) /
    (Real.sqrt ((sumSq a : ℚ) : ℝ) * Real.sqrt ((sumSq b : ℚ) : ℝ)))

/-- The AlumniMatch record returned per candidate.  The score is an Option:
none models a NaN score (see calculateCosineSimilarity). -/
structure AlumniMatch where
  alumni : AlumniProfile
  score : Option ℝ
  reasons : List String
  matchTypes : List MatchCriteria
  aiInsights : String

/-- Accumulator of the criteria loop in calculateMatch. -/
structure MatchAcc where
  totalScore : ℚ
  totalWeight : ℚ
  reasons : List String
  matchTypes : List MatchCriteria

/-- The sub-score computed for one criterion kind in calculateMatch. -/
def criterionScore (seeker : Seeker) (alumni : AlumniProfile) : CriteriaType → ℚ
  | .career_similarity => calculateCareerSimilarity seeker alumni
  | .skill_complement => calculateSkillComplement seeker alumni
  | .geographic_proximity => calculateGeographicProximity seeker alumni
  | .mentorship_fit => calculateMentorshipFit seeker alumni

/-- One iteration of the criteria loop of calculateMatch: accumulate
weighted score and weight, and append the templated reason and the
criterion when the sub-score clears its notability threshold. -/
def criterionStep (seeker : Seeker) (alumni : AlumniProfile)
    (acc : MatchAcc) (c : MatchCriteria) : MatchAcc :=
  let s := criterionScore seeker alumni c.ctype
  let fires : Bool :=
    match c.ctype with
    | .career_similarity => decide (s > 0.7)
    | .skill_complement => decide (s > 0.6)
    | .geographic_proximity => decide (s > 0.8)
    | .mentorship_fit => decide (s > 0.7) && alumni.isMentor
  let reason : String :=
    match c.ctype with
    | .career_similarity =>
        "Strong career alignment in " ++
          (if alumni.industry.getD "" ≠ "" then alumni.industry.getD ""
           else alumni.department)
    | .skill_complement =>
        "Complementary skills in " ++ joinSep ", " (getTopSkills alumni.skills)
    | .geographic_proximity =>
        "Both located in " ++
          (if alumni.workLocation.getD "" ≠ "" then alumni.workLocation.getD ""
           else "similar area")
    | .mentorship_fit =>
        "Excellent mentorship match - " ++ toString (alumni.yearsExperience.getD 0).num ++
          "+ years experience"
  { totalScore := acc.totalScore + s * c.weight
    totalWeight := acc.totalWeight + c.weight
    reasons := acc.reasons ++ (if fires then [reason] else [])
    matchTypes := acc.matchTypes ++ (if fires then [c] else []) }

/-- The accumulator after the whole criteria loop. -/
def runCriteria (seeker : Seeker) (alumni : AlumniProfile)
    (criteria : List MatchCriteria) : MatchAcc :=
  criteria.foldl (criterionStep seeker alumni) ⟨0, 0, [], []⟩

/-- calculateMatch: run the criteria loop, blend the rule score with the
embedding cosine similarity (0.7 / 0.3) when the total weight is positive,
otherwise fall back to the semantic similarity alone.  embed is the
embedding provider (getMockEmbedding in the demo configuration) and ins
models generateMatchInsights. -/
noncomputable def calculateMatch (embed : String → List ℚ)
    (ins : AlumniProfile → Option ℝ → String)
    (seeker : Seeker) (alumni : AlumniProfile) (criteria : List MatchCriteria)
    (seekerEmbedding : List ℚ) : AlumniMatch :=
  let acc := runCriteria seeker alumni criteria
  let alumniEmbedding := embed (createProfileText (Seeker.alum alumni))
  let semanticSimilarity := calculateCosineSimilarity seekerEmbedding alumniEmbedding
  let finalScore : Option ℝ := semanticSimilarity.map (fun sem =>
    if acc.totalWeight > 0 then
      ((acc.totalScore / acc.totalWeight : ℚ) : ℝ) * 0.7 + sem * 0.3
    else sem)
  { alumni := alumni
    score := finalScore
    reasons := acc.reasons
    matchTypes := acc.matchTypes
    aiInsights := ins alumni finalScore }

/-- getFallbackMatches: the first limit candidates in input order, each
scored 0.5 + Math.random() * 0.3 (rand i is the i-th Math.random() draw),
with fixed reasons, matchTypes and insight. -/
def getFallbackMatches (alumni : List AlumniProfile) (limit : ℕ)
    (rand : ℕ → ℚ) : List AlumniMatch :=
  (alumni.take limit).mapIdx (fun i al =>
    { alumni := al
      score := some (((0.5 + rand i * 0.3 : ℚ) : ℝ))
      reasons := ["Profile compatibility", "Shared academic background"]
      matchTypes := [⟨.career_similarity, 1.0⟩]
      aiInsights := "Good potential for professional networking and career insights." })

/-- Score read off an AlumniMatch for comparison purposes; only applied to
matches that passed the threshold filter, whose score is always some. -/
noncomputable def scoreValue (m : AlumniMatch) : ℝ := m.score.getD 0

/-- The threshold test match.score > 0.3 of findMatches; a NaN (none)
score compares false in JavaScript and is rejected here as well. -/
noncomputable def scorePasses (m : AlumniMatch) : Bool :=
  match m.score with
  | some v => decide (v > 0.3)
  | none => false

/-- The comparator (a, b) => b.score - a.score of Array.prototype.sort:
keep a before b exactly when b.score ≤ a.score (ECMAScript sort is
stable, as is List.mergeSort). -/
noncomputable def matchLe (a b : AlumniMatch) : Bool :=
  decide (scoreValue b ≤ scoreValue a)

/-- findMatches: on the success path, score every candidate, keep those
above 0.3, sort by descending score and truncate to the limit (default
10).  The parameter err models an exception thrown inside the try body;
the catch returns getFallbackMatches. -/
noncomputable def findMatches (embed : String → List ℚ)
    (ins : AlumniProfile → Option ℝ → String) (err : Bool) (rand : ℕ → ℚ)
    (seeker : Seeker) (availableAlumni : List AlumniProfile)
    (criteriaOpt : Option (List MatchCriteria)) (limitOpt : Option ℕ) :
    List AlumniMatch :=
  let criteria := criteriaOpt.getD getDefaultCriteria
  let limit := limitOpt.getD 10
  if err then getFallbackMatches availableAlumni limit rand
  else
    let profileEmbedding := embed (createProfileText seeker)
    let matchList := (availableAlumni.map
      (fun alumni => calculateMatch embed ins seeker alumni criteria profileEmbedding)).filter
      scorePasses
    (matchList.mergeSort matchLe).take limit

end AlumniMatchingEngine

namespace MatchRoute

/-- The studentProfile field of a MatchRequest body. -/
structure StudentReq where
  name : String
  major : String
  careerInterests : List String
  skills : List String
  location : String
  isSeekingMentorship : Bool
  bio : Option String
deriving Repr, DecidableEq

/-- One record of mockAlumni. -/
structure AlumniRec where
  id : String
  name : String
  currentPosition : String
  currentCompany : String
  industry : String
  graduationYear : ℕ
  skills : List String
  location : String
  bio : String
  isAvailableForMentoring : Bool
deriving Repr, DecidableEq

/-- The first mockAlumni record. -/
def sarahChen : AlumniRec :=
  ⟨"1", "Sarah Chen", "Senior Software Engineer", "Google", "Technology", 2018,
   ["JavaScript", "Python", "Machine Learning", "Cloud Architecture"],
   "San Francisco, CA",
   "Passionate about AI and full-stack development. Love mentoring new graduates.", true⟩

/-- The hard-coded mockAlumni demo pool of the route. -/
def mockAlumni : List AlumniRec :=
  [sarahChen,
   ⟨"2", "Michael Rodriguez", "Product Manager", "Meta", "Technology", 2019,
    ["Product Strategy", "Data Analysis", "User Research", "Agile"],
    "Seattle, WA",
    "Product leader with experience in social platforms and AR/VR.", true⟩,
   ⟨"3", "Dr. Emily Johnson", "Research Scientist", "Stanford Research Institute",
    "Healthcare", 2016,
    ["Biomedical Engineering", "Data Science", "Research", "Publications"],
    "Palo Alto, CA",
    "Researching AI applications in healthcare and medical devices.", true⟩,
   ⟨"4", "David Park", "Startup Founder", "TechFlow Solutions", "Entrepreneurship", 2017,
    ["Leadership", "Business Strategy", "Fundraising", "Product Development"],
    "Austin, TX",
    "Serial entrepreneur focused on B2B SaaS solutions.", true⟩,
   ⟨"5", "Jessica Wong", "UX Design Lead", "Apple", "Technology", 2020,
    ["User Experience", "Design Systems", "Prototyping", "User Research"],
    "Cupertino, CA",
    "Creating intuitive user experiences for consumer products.", true⟩]

/-- The default criteria of the POST handler. -/
def defaultCriteria : List MatchCriteria :=
  [⟨.career_similarity, 0.3⟩, ⟨.skill_complement, 0.25⟩,
   ⟨.mentorship_fit, 0.25⟩, ⟨.geographic_proximity, 0.2⟩]

/-- calculateSkillsMatch: 0.4 times the fraction of student skills that
match some alumni skill (case-insensitive substring in either direction)
plus 0.6 times the count of non-matching alumni skills capped at 5,
divided by 5. -/
def calculateSkillsMatch (studentSkills alumniSkills : List String) : ℚ :=
  let studentSkillsLower := studentSkills.map lowerStr
  let alumniSkillsLower := alumniSkills.map lowerStr
  let matchingSkills := studentSkillsLower.filter (fun skill =>
    alumniSkillsLower.any (fun alumniSkill =>
      jsIncludes alumniSkill skill || jsIncludes skill alumniSkill))
  let complementarySkills := alumniSkillsLower.filter (fun skill =>
    !studentSkillsLower.any (fun studentSkill =>
      jsIncludes studentSkill skill || jsIncludes skill studentSkill))
  let matchScore : ℚ := (matchingSkills.length : ℚ) / (max studentSkills.length 1 : ℕ)
  let complementScore : ℚ := min ((complementarySkills.length : ℚ) / 5) 1
  matchScore * 0.4 + complementScore * 0.6

/-- The inner getState helper: last comma-separated, trimmed part. -/
def getState (loc : String) : String :=
  ((splitChar loc ',').map trimStr).getLastD ""

/-- The hand-enumerated west-coast states. -/
def westCoast : List String := ["ca", "california", "wa", "washington", "or", "oregon"]

/-- The hand-enumerated east-coast states. -/
def eastCoast : List String := ["ny", "new york", "ma", "massachusetts", "ct", "connecticut"]

/-- The single-state Texas region. -/
def texas : List String := ["tx", "texas"]

/-- state.includes(w) over the west-coast list. -/
def isWestCoast (state : String) : Bool := westCoast.any (fun w => jsIncludes state w)

/-- state.includes(e) over the east-coast list. -/
def isEastCoast (state : String) : Bool := eastCoast.any (fun e => jsIncludes state e)

/-- state.includes(t) over the Texas list. -/
def isTexas (state : String) : Bool := texas.any (fun t => jsIncludes state t)

/-- Co-membership of two state tokens in one of the three hand-enumerated
regions. -/
def sameRegion (state1 state2 : String) : Bool :=
  (isWestCoast state1 && isWestCoast state2) ||
  (isEastCoast state1 && isEastCoast state2) ||
  (isTexas state1 && isTexas state2)

/-- calculateGeographicProximity of the route: 1.0 on a lowercased exact
match, 0.7 on an equal trailing state token, 0.5 on co-membership of one
of the three enumerated regions, else 0.2. -/
def calculateGeographicProximity (location1 location2 : String) : ℚ :=
  let loc1 := lowerStr location1
  let loc2 := lowerStr location2
  if loc1 = loc2 then 1.0
  else
    let state1 := getState loc1
    let state2 := getState loc2
    if state1 = state2 then 0.7
    else if sameRegion state1 state2 then 0.5
    else 0.2

/-- calculateMatchScore of the route: sum sub-score times weight over the
criteria, clamped above at 1 (no lower clamp, no weight normalization, no
semantic blending).  sem models calculateSemanticSimilarity, the external
embedding call (with its lexical fallback); it enters the
career_similarity and mentorship_fit criteria. -/
noncomputable def calculateMatchScore (sem : String → String → ℝ)
    (studentProfile : StudentReq) (alumniProfile : AlumniRec)
    (criteria : List MatchCriteria) : ℝ :=
  let totalScore : ℝ := criteria.foldl (fun total c =>
    let score : ℝ :=
      match c.ctype with
      | .career_similarity =>
          sem (studentProfile.major ++ " " ++ joinSep " " studentProfile.careerInterests)
            (alumniProfile.currentPosition ++ " " ++ alumniProfile.industry)
      | .skill_complement =>
          ((calculateSkillsMatch studentProfile.skills alumniProfile.skills : ℚ) : ℝ)
      | .mentorship_fit =>
          if !alumniProfile.isAvailableForMentoring || !studentProfile.isSeekingMentorship
          then 0
          else sem (studentProfile.bio.getD "") alumniProfile.bio * 0.8 + 0.2
      | .geographic_proximity =>
          ((calculateGeographicProximity studentProfile.location alumniProfile.location : ℚ) : ℝ)
    total + score * (c.weight : ℝ)) 0
  min totalScore 1.0

/-- generateMatchReasons: templated reasons in derivation order, capped at
4. -/
noncomputable def generateMatchReasons (studentProfile : StudentReq)
    (alumniProfile : AlumniRec) (criteria : List MatchCriteria)
    (totalScore : ℝ) : List String :=
  let careerReasons :=
    if criteria.any (fun c => c.ctype = .career_similarity) then
      let hasCareerAlignment := studentProfile.careerInterests.any (fun interest =>
        jsIncludes (lowerStr alumniProfile.industry) (lowerStr interest) ||
        jsIncludes (lowerStr alumniProfile.currentPosition) (lowerStr interest))
      if hasCareerAlignment then
        ["Works in " ++ alumniProfile.industry ++ " which aligns with your career interests"]
      else []
    else []
  let skillReasons :=
    if criteria.any (fun c => c.ctype = .skill_complement) then
      let matchingSkills := studentProfile.skills.filter (fun skill =>
        alumniProfile.skills.any (fun alumniSkill =>
          jsIncludes (lowerStr alumniSkill) (lowerStr skill)))
      let r1 := if matchingSkills.length > 0 then
          ["Shares skills in " ++ joinSep ", " (matchingSkills.take 3)]
        else []
      let newSkills := alumniProfile.skills.filter (fun skill =>
        !studentProfile.skills.any (fun studentSkill =>
          jsIncludes (lowerStr studentSkill) (lowerStr skill)))
      let r2 := if newSkills.length > 0 then
          ["Can help you learn " ++ joinSep " and " (newSkills.take 2)]
        else []
      r1 ++ r2
    else []
  let geoReasons :=
    if criteria.any (fun c => c.ctype = .geographic_proximity) then
      if lowerStr studentProfile.location = lowerStr alumniProfile.location then
        ["Located in the same city"]
      else if calculateGeographicProximity studentProfile.location alumniProfile.location
          > 0.5 then
        ["Located in the same region"]
      else []
    else []
  let mentorReasons :=
    if alumniProfile.isAvailableForMentoring && studentProfile.isSeekingMentorship then
      ["Available for mentorship"]
    else []
  let scoreReasons :=
    if totalScore > 0.8 then ["Excellent overall compatibility"]
    else if totalScore > 0.6 then ["Strong professional alignment"]
    else []
  (careerReasons ++ skillReasons ++ geoReasons ++ mentorReasons ++ scoreReasons).take 4

/-- One element of the matches array built by the POST handler (the alumni
record spread plus matchScore and matchReasons). -/
structure RouteMatch where
  alumni : AlumniRec
  matchScore : ℝ
  matchReasons : List String

/-- The sort comparator (a, b) => b.matchScore - a.matchScore. -/
noncomputable def routeLe (a b : RouteMatch) : Bool :=
  decide (b.matchScore ≤ a.matchScore)

/-- POST handler of the route: none models the 400 response for a missing
or empty student name; otherwise score all mockAlumni, sort by descending
matchScore and truncate to the limit (default 10).  No admission
threshold is applied. -/
noncomputable def postMatches (sem : String → String → ℝ)
    (studentProfile : StudentReq) (criteriaOpt : Option (List MatchCriteria))
    (limitOpt : Option ℕ) : Option (List RouteMatch) :=
  if studentProfile.name = "" then none
  else
    let criteria := criteriaOpt.getD defaultCriteria
    let limit := limitOpt.getD 10
    let matchList := mockAlumni.map (fun alumni =>
      let score := calculateMatchScore sem studentProfile alumni criteria
      { alumni := alumni
        matchScore := score
        matchReasons := generateMatchReasons studentProfile alumni criteria score })
    some ((matchList.mergeSort routeLe).take limit)

end MatchRoute

namespace IntelligentMatchingEngine

/-- calculateCosineSimilarity of IntelligentMatchingEngine: 0 on a length
mismatch, 0 when either norm is zero (the source checks
normA === 0 || normB === 0 before dividing), else the usual quotient. -/
noncomputable def calculateCosineSimilarity (vectorA vectorB : List ℚ) : ℝ :=
  if vectorA.length ≠ vectorB.length then 0
  else if sumSq vectorA = 0 ∨ sumSq vectorB = 0 then 0
  else ((dotList vectorA vectorB : ℚ) : ℝ) /
    (Real.sqrt ((sumSq vectorA : ℚ) : ℝ) * Real.sqrt ((sumSq vectorB : ℚ) : ℝ))

/-- The MatchingContext record (the fields read by calculateMentorshipFit). -/
structure MatchingContext where
  userProfile : Seeker
  context : String

/-- calculateMentorshipFit of IntelligentMatchingEngine: 0.5 outside
mentorship context, 0.1 for non-mentors, else a 0.7 base plus an
interest-alignment fraction times 0.3, clamped to 1. -/
def calculateMentorshipFit (context : MatchingContext)
    (candidateProfile : AlumniProfile) : ℚ :=
  if context.context ≠ "mentorship" then 0.5
  else if !candidateProfile.isMentor then 0.1
  else
    let base : ℚ := 0.7
    let score : ℚ :=
      match context.userProfile with
      | .student st =>
          let userInterests := st.careerInterests.map lowerStr
          let mentorCategories := candidateProfile.mentorCategories.map lowerStr
          let alignment := (userInterests.filter (fun interest =>
            mentorCategories.any (fun category =>
              jsIncludes category interest || jsIncludes interest category))).length
          base + ((alignment : ℚ) / (max userInterests.length 1 : ℕ)) * 0.3
      | .alum _ => base
    min score 1.0

end IntelligentMatchingEngine

namespace MatchRoute

/-- The cosine-similarity computation inside calculateSemanticSimilarity
of the route, applied to the two embeddings returned by the provider (the
provider always returns equal-length vectors; out-of-range index access
is not modelled).  The source computes both magnitudes and returns 0 when
either is zero, before dividing. -/
noncomputable def semanticCosine (embedding1 embedding2 : List ℚ) : ℝ :=
  let magnitude1 := Real.sqrt ((sumSq embedding1 : ℚ) : ℝ)
  let magnitude2 := Real.sqrt ((sumSq embedding2 : ℚ) : ℝ)
  if magnitude1 = 0 ∨ magnitude2 = 0 then 0
  else ((dotList embedding1 embedding2 : ℚ) : ℝ) / (magnitude1 * magnitude2)

end MatchRoute

/-- Trivial insight oracle used for concrete scenarios. -/
def insEmpty : AlumniProfile → Option ℝ → String := fun _ _ => ""

/-- Trivial Math.random oracle used for concrete scenarios. -/
def randZero : ℕ → ℚ := fun _ => 0

/-- Constant semantic-similarity oracle used for concrete scenarios. -/
noncomputable def semZero : String → String → ℝ := fun _ _ => 0

/-- Constant semantic-similarity oracle with value one half. -/
noncomputable def semHalf : String → String → ℝ := fun _ _ => 1 / 2

/-- A criteria list holding only the skill_complement criterion with
weight 1. -/
def skillOnlyCriteria : List MatchCriteria := [⟨.skill_complement, 1⟩]

/-- A criteria list holding only the geographic_proximity criterion with
weight 1. -/
def geoOnlyCriteria : List MatchCriteria := [⟨.geographic_proximity, 1⟩]

/-- A computer-science student owning the single skill react. -/
def dupSkillSeeker : Seeker :=
  .student ⟨"Computer Science", [], [⟨"react", "Expert"⟩], false, none⟩

/-- A candidate whose skill list holds thirteen copies of react (a list
is free to repeat a skill name). -/
def dupSkillAlumni : AlumniProfile :=
  ⟨"a1", "Computer Science", none, none, none, none,
   List.replicate 13 ⟨"react", "Expert"⟩, false, [], none⟩

/-- A student located far from every enumerated region. -/
def farStudent : MatchRoute.StudentReq :=
  ⟨"Test Student", "Undeclared", [], [], "Nowhere", false, none⟩

/-- A family of identical candidate profiles differing only in id. -/
def remoteAlumni (i : String) : AlumniProfile :=
  ⟨i, "Design", none, none, some "Remote", none, [], false, [], none⟩

/-- An alumni seeker with the same profile text and location as the
remoteAlumni candidates. -/
def remoteSeeker : Seeker := .alum (remoteAlumni "0")

/-- An alumni seeker located in San Francisco. -/
def sfSeeker : Seeker :=
  .alum ⟨"s1", "X", none, none, some "San Francisco, CA", none, [], false, [], none⟩

/-- A candidate located in Boston. -/
def bostonAlumni : AlumniProfile :=
  ⟨"a2", "Y", none, none, some "Boston, MA", none, [], false, [], none⟩

/-- A mentorship-context request from a student interested in ai. -/
def mentorshipContext : IntelligentMatchingEngine.MatchingContext :=
  ⟨.student ⟨"Computer Science", ["ai"], [], true, none⟩, "mentorship"⟩

/-- A candidate who is not mentorship-available but lists a matching
mentor category. -/
def nonMentorCandidate : AlumniProfile :=
  ⟨"c1", "Computer Science", none, none, none, none, [], false, ["ai"], none⟩

theorem dotList_cons (x y : ℚ) (a b : List ℚ) :
    dotList (x :: a) (y :: b) = x * y + dotList a b := by
  simp [dotList, List.zipWith]

theorem sumSq_cons (x : ℚ) (l : List ℚ) : sumSq (x :: l) = x * x + sumSq l :=
  dotList_cons x x l l

theorem sumSq_nonneg (l : List ℚ) : 0 ≤ sumSq l := by
  induction l with
  | nil => exact le_refl 0
  | cons x l ih => rw [sumSq_cons]; exact add_nonneg (mul_self_nonneg x) ih

theorem sumSq_pos_of_mem {x : ℚ} {l : List ℚ} (hm : x ∈ l) (hx : x ≠ 0) :
    0 < sumSq l := by
  induction l with
  | nil => cases hm
  | cons y l ih =>
      rw [sumSq_cons]
      rcases List.mem_cons.1 hm with h | h
      · subst h
        exact add_pos_of_pos_of_nonneg (mul_self_pos.2 hx) (sumSq_nonneg l)
      · exact add_pos_of_nonneg_of_pos (mul_self_nonneg y) (ih h)

theorem dotList_eq_sum_range (a b : List ℚ) :
    dotList a b =
      ∑ i ∈ Finset.range (min a.length b.length), a.getD i 0 * b.getD i 0 := by
  induction a generalizing b with
  | nil => simp [dotList]
  | cons x a ih =>
      cases b with
      | nil => simp [dotList]
      | cons y b =>
          rw [dotList_cons, ih]
          simp only [List.length_cons, Nat.succ_min_succ, Finset.sum_range_succ',
            List.getD_cons_succ, List.getD_cons_zero]
          ring

/-- Cauchy-Schwarz for the loop-computed dot product and norms. -/
theorem dotList_sq_le (a b : List ℚ) : (dotList a b) ^ 2 ≤ sumSq a * sumSq b := by
  have key := Finset.sum_mul_sq_le_sq_mul_sq (Finset.range (min a.length b.length))
    (fun i => a.getD i 0) (fun i => b.getD i 0)
  have hA : sumSq a = ∑ i ∈ Finset.range a.length, a.getD i 0 ^ 2 := by
    have := dotList_eq_sum_range a a
    simpa [sumSq, sq] using this
  have hB : sumSq b = ∑ i ∈ Finset.range b.length, b.getD i 0 ^ 2 := by
    have := dotList_eq_sum_range b b
    simpa [sumSq, sq] using this
  have hMonoA : (∑ i ∈ Finset.range (min a.length b.length), a.getD i 0 ^ 2) ≤ sumSq a := by
    rw [hA]
    exact Finset.sum_le_sum_of_subset_of_nonneg
      (Finset.range_subset.2 (Nat.min_le_left _ _)) (fun i _ _ => sq_nonneg _)
  have hMonoB : (∑ i ∈ Finset.range (min a.length b.length), b.getD i 0 ^ 2) ≤ sumSq b := by
    rw [hB]
    exact Finset.sum_le_sum_of_subset_of_nonneg
      (Finset.range_subset.2 (Nat.min_le_right _ _)) (fun i _ _ => sq_nonneg _)
  calc (dotList a b) ^ 2
      = (∑ i ∈ Finset.range (min a.length b.length), a.getD i 0 * b.getD i 0) ^ 2 := by
        rw [dotList_eq_sum_range]
    _ ≤ (∑ i ∈ Finset.range (min a.length b.length), a.getD i 0 ^ 2) *
        (∑ i ∈ Finset.range (min a.length b.length), b.getD i 0 ^ 2) := key
    _ ≤ sumSq a * sumSq b := by
        refine mul_le_mul hMonoA hMonoB (Finset.sum_nonneg fun i _ => sq_nonneg _) ?_
        exact sumSq_nonneg a

namespace AlumniMatchingEngine

theorem calculateCosineSimilarity_bounds {a b : List ℚ} {c : ℝ}
    (h : calculateCosineSimilarity a b = some c) : -1 ≤ c ∧ c ≤ 1 := by
  unfold calculateCosineSimilarity at h
  by_cases h1 : a.length ≠ b.length
  case pos =>
    rw [if_pos h1] at h
    cases h
    constructor <;> norm_num
  case neg =>
  rw [if_neg h1] at h
  by_cases h2 : sumSq a = 0 ∨ sumSq b = 0
  case pos => rw [if_pos h2] at h; cases h
  case neg =>
    rw [if_neg h2] at h
    have hval := Option.some.inj h
    push_neg at h2
    have hA : (0 : ℝ) < ((sumSq a : ℚ) : ℝ) := by
      exact_mod_cast lt_of_le_of_ne (sumSq_nonneg a) (Ne.symm h2.1)
    have hB : (0 : ℝ) < ((sumSq b : ℚ) : ℝ) := by
      exact_mod_cast lt_of_le_of_ne (sumSq_nonneg b) (Ne.symm h2.2)
    have hden : 0 < Real.sqrt ((sumSq a : ℚ) : ℝ) * Real.sqrt ((sumSq b : ℚ) : ℝ) :=
      mul_pos (Real.sqrt_pos.2 hA) (Real.sqrt_pos.2 hB)
    have hcs : (((dotList a b : ℚ) : ℝ)) ^ 2 ≤ ((sumSq a : ℚ) : ℝ) * ((sumSq b : ℚ) : ℝ) := by
      have := dotList_sq_le a b
      exact_mod_cast this
    have habs1 : |((dotList a b : ℚ) : ℝ)| ≤
        Real.sqrt ((sumSq a : ℚ) : ℝ) * Real.sqrt ((sumSq b : ℚ) : ℝ) := by
      rw [← Real.sqrt_mul hA.le, ← Real.sqrt_sq_eq_abs]
      exact Real.sqrt_le_sqrt hcs
    have habs : |c| ≤ 1 := by
      rw [← hval, abs_div, abs_of_pos hden]
      exact (div_le_one hden).2 habs1
    exact abs_le.1 habs

theorem calculateCosineSimilarity_self {a : List ℚ} (h : sumSq a ≠ 0) :
    calculateCosineSimilarity a a = some 1 := by
  unfold calculateCosineSimilarity
  rw [if_neg (by simp), if_neg (by simp [h])]
  have hnn : (0 : ℝ) ≤ ((sumSq a : ℚ) : ℝ) := by exact_mod_cast sumSq_nonneg a
  rw [Real.mul_self_sqrt hnn]
  have : (dotList a a : ℚ) = sumSq a := rfl
  rw [this, div_self (by exact_mod_cast h)]

theorem length_getMockEmbedding (t : String) : (getMockEmbedding t).length = 100 := by
  simp [getMockEmbedding]

theorem getMockEmbedding_ne_zero (t : String) :
    ∃ x ∈ getMockEmbedding t, x ≠ 0 := by
  by_cases hc : simpleHash t % 1000 = 500
  · refine ⟨(((simpleHash t + 1) % 1000 : ℕ) : ℚ) / 1000 - 0.5, ?_, ?_⟩
    · exact List.mem_map.2 ⟨1, List.mem_range.2 (by norm_num), rfl⟩
    · have h1 : (simpleHash t + 1) % 1000 = 501 := by
        rw [Nat.add_mod, hc]
      rw [h1]
      norm_num
  · refine ⟨(((simpleHash t + 0) % 1000 : ℕ) : ℚ) / 1000 - 0.5, ?_, ?_⟩
    · exact List.mem_map.2 ⟨0, List.mem_range.2 (by norm_num), rfl⟩
    · intro heq
      apply hc
      have h500 : ((simpleHash t + 0) % 1000 : ℕ) = (500 : ℕ) := by
        have : (((simpleHash t + 0) % 1000 : ℕ) : ℚ) = 500 := by linarith
        exact_mod_cast this
      simpa using h500

theorem sumSq_getMockEmbedding_pos (t : String) : 0 < sumSq (getMockEmbedding t) := by
  obtain ⟨x, hm, hx⟩ := getMockEmbedding_ne_zero t
  exact sumSq_pos_of_mem hm hx

theorem calculateCosineSimilarity_mock_some (t u : String) :
    ∃ c, calculateCosineSimilarity (getMockEmbedding t) (getMockEmbedding u) = some c ∧
      -1 ≤ c ∧ c ≤ 1 := by
  have hne1 := (sumSq_getMockEmbedding_pos t).ne'
  have hne2 := (sumSq_getMockEmbedding_pos u).ne'
  have heq : calculateCosineSimilarity (getMockEmbedding t) (getMockEmbedding u) =
      some (((dotList (getMockEmbedding t) (getMockEmbedding u) : ℚ) : ℝ) /
        (Real.sqrt ((sumSq (getMockEmbedding t) : ℚ) : ℝ) *
         Real.sqrt ((sumSq (getMockEmbedding u) : ℚ) : ℝ))) := by
    unfold calculateCosineSimilarity
    rw [if_neg (by simp [length_getMockEmbedding]), if_neg (by simp [hne1, hne2])]
  exact ⟨_, heq, calculateCosineSimilarity_bounds heq⟩

end AlumniMatchingEngine

theorem foldl_cond_ge (l : List String) (p : String → Bool) (init : ℚ) :
    init ≤ l.foldl (fun sc itm => if p itm then sc + 0.3 else sc) init := by
  induction l generalizing init with
  | nil => exact le_refl init
  | cons x xs ih =>
      simp only [List.foldl_cons]
      by_cases hx : p x
      · rw [if_pos hx]
        exact le_trans (by linarith) (ih (init + 0.3))
      · rw [if_neg hx]
        exact ih init

namespace AlumniMatchingEngine

theorem calculateCareerSimilarity_nonneg (seeker : Seeker) (alumni : AlumniProfile) :
    0 ≤ calculateCareerSimilarity seeker alumni := by
  unfold calculateCareerSimilarity
  have hbase : (0 : ℚ) ≤ (if seeker.department = alumni.department then (0.4 : ℚ) else 0) := by
    split <;> norm_num
  rw [le_min_iff]
  refine ⟨?_, by norm_num⟩
  cases seeker with
  | student st =>
      simp only
      exact le_trans hbase (foldl_cond_ge _ _ _)
  | alum al =>
      simp only
      cases al.yearsExperience with
      | none => exact hbase
      | some y =>
          simp only
          have : (0 : ℚ) ≤ max 0 (0.3 - |y - alumni.yearsExperience.getD 0| * 0.05) :=
            le_max_left 0 _
          linarith

theorem calculateCareerSimilarity_le_one (seeker : Seeker) (alumni : AlumniProfile) :
    calculateCareerSimilarity seeker alumni ≤ 1 := by
  unfold calculateCareerSimilarity
  cases seeker <;> dsimp only <;>
    exact le_trans (min_le_right _ _) (by norm_num)

theorem calculateSkillComplement_nonneg (seeker : Seeker) (alumni : AlumniProfile) :
    0 ≤ calculateSkillComplement seeker alumni := by
  unfold calculateSkillComplement
  dsimp only
  refine add_nonneg (mul_nonneg (div_nonneg ?_ ?_) (by norm_num))
    (mul_nonneg (div_nonneg ?_ ?_) (by norm_num)) <;> exact Nat.cast_nonneg _

theorem calculateSkillComplement_le_one (seeker : Seeker) (alumni : AlumniProfile)
    (h : (alumni.skills.map (fun s => lowerStr s.name)).Nodup) :
    calculateSkillComplement seeker alumni ≤ 1 := by
  unfold calculateSkillComplement
  set seekerSkills := (Seeker.skills seeker).map (fun s => lowerStr s.name) with hss
  set alumniSkills := alumni.skills.map (fun s => lowerStr s.name) with has
  set seekerNeeds := inferNeededSkills seeker with hsn
  have hd1 : (0 : ℚ) < ((max seekerSkills.length 1 : ℕ) : ℚ) := by
    have : (1 : ℕ) ≤ max seekerSkills.length 1 := le_max_right _ _
    exact_mod_cast Nat.lt_of_lt_of_le Nat.zero_lt_one this
  have hd2 : (0 : ℚ) < ((max seekerNeeds.length 1 : ℕ) : ℚ) := by
    have : (1 : ℕ) ≤ max seekerNeeds.length 1 := le_max_right _ _
    exact_mod_cast Nat.lt_of_lt_of_le Nat.zero_lt_one this
  have hov : ((seekerSkills.filter (fun skill => alumniSkills.contains skill)).length : ℚ) /
      ((max seekerSkills.length 1 : ℕ) : ℚ) ≤ 1 := by
    rw [div_le_one hd1]
    have h1 : (seekerSkills.filter (fun skill => alumniSkills.contains skill)).length ≤
        seekerSkills.length := List.length_filter_le _ _
    have h2 : seekerSkills.length ≤ max seekerSkills.length 1 := le_max_left _ _
    exact_mod_cast le_trans h1 h2
  have hcomp : ((alumniSkills.filter (fun skill => seekerNeeds.contains skill)).length : ℚ) /
      ((max seekerNeeds.length 1 : ℕ) : ℚ) ≤ 1 := by
    rw [div_le_one hd2]
    have hnodup : (alumniSkills.filter (fun skill => seekerNeeds.contains skill)).Nodup :=
      List.Nodup.filter _ h
    have hsub : (alumniSkills.filter (fun skill => seekerNeeds.contains skill)).toFinset ⊆
        seekerNeeds.toFinset := by
      intro x hx
      rw [List.mem_toFinset] at hx ⊢
      have := (List.mem_filter.1 hx).2
      exact List.mem_of_elem_eq_true this
    have hcard : (alumniSkills.filter (fun skill => seekerNeeds.contains skill)).length ≤
        seekerNeeds.length := by
      rw [← List.toFinset_card_of_nodup hnodup]
      exact le_trans (Finset.card_le_card hsub) (List.toFinset_card_le _)
    have h2 : seekerNeeds.length ≤ max seekerNeeds.length 1 := le_max_left _ _
    exact_mod_cast le_trans hcard h2
  have hov0 : (0 : ℚ) ≤ ((seekerSkills.filter
      (fun skill => alumniSkills.contains skill)).length : ℚ) /
      ((max seekerSkills.length 1 : ℕ) : ℚ) := by positivity
  have hcomp0 : (0 : ℚ) ≤ ((alumniSkills.filter
      (fun skill => seekerNeeds.contains skill)).length : ℚ) /
      ((max seekerNeeds.length 1 : ℕ) : ℚ) := by positivity
  nlinarith

theorem calculateGeographicProximity_cases (seeker : Seeker) (alumni : AlumniProfile) :
    calculateGeographicProximity seeker alumni = 0 ∨
    calculateGeographicProximity seeker alumni = 0.7 ∨
    calculateGeographicProximity seeker alumni = 1 := by
  unfold calculateGeographicProximity
  dsimp only
  split_ifs <;> norm_num

theorem calculateGeographicProximity_nonneg (seeker : Seeker) (alumni : AlumniProfile) :
    0 ≤ calculateGeographicProximity seeker alumni := by
  rcases calculateGeographicProximity_cases seeker alumni with h | h | h <;> rw [h] <;> norm_num

theorem calculateGeographicProximity_le_one (seeker : Seeker) (alumni : AlumniProfile) :
    calculateGeographicProximity seeker alumni ≤ 1 := by
  rcases calculateGeographicProximity_cases seeker alumni with h | h | h <;> rw [h] <;> norm_num

theorem seekingMentorshipBonus_nonneg (seeker : Seeker) :
    0 ≤ seekingMentorshipBonus seeker := by
  cases seeker <;> simp only [seekingMentorshipBonus] <;>
    first
    | split_ifs <;> norm_num
    | norm_num

theorem experienceGapBonus_nonneg (seeker : Seeker) (alumni : AlumniProfile) :
    0 ≤ experienceGapBonus seeker alumni := by
  unfold experienceGapBonus
  dsimp only
  split_ifs <;> norm_num

theorem mentorCategoryBonus_nonneg (seeker : Seeker) (alumni : AlumniProfile) :
    0 ≤ mentorCategoryBonus seeker alumni := by
  unfold mentorCategoryBonus
  dsimp only
  split_ifs <;> norm_num

theorem calculateMentorshipFit_nonneg (seeker : Seeker) (alumni : AlumniProfile) :
    0 ≤ calculateMentorshipFit seeker alumni := by
  unfold calculateMentorshipFit
  split_ifs with h
  · exact le_refl 0
  · rw [le_min_iff]
    have h1 := seekingMentorshipBonus_nonneg seeker
    have h2 := experienceGapBonus_nonneg seeker alumni
    have h3 := mentorCategoryBonus_nonneg seeker alumni
    constructor
    · linarith
    · norm_num

theorem calculateMentorshipFit_le_one (seeker : Seeker) (alumni : AlumniProfile) :
    calculateMentorshipFit seeker alumni ≤ 1 := by
  unfold calculateMentorshipFit
  split_ifs with h
  · norm_num
  · exact le_trans (min_le_right _ _) (by norm_num)

theorem criterionScore_nonneg (seeker : Seeker) (alumni : AlumniProfile)
    (t : CriteriaType) : 0 ≤ criterionScore seeker alumni t := by
  cases t with
  | career_similarity => exact calculateCareerSimilarity_nonneg seeker alumni
  | skill_complement => exact calculateSkillComplement_nonneg seeker alumni
  | geographic_proximity => exact calculateGeographicProximity_nonneg seeker alumni
  | mentorship_fit => exact calculateMentorshipFit_nonneg seeker alumni

theorem criterionScore_le_one (seeker : Seeker) (alumni : AlumniProfile)
    (h : (alumni.skills.map (fun s => lowerStr s.name)).Nodup)
    (t : CriteriaType) : criterionScore seeker alumni t ≤ 1 := by
  cases t with
  | career_similarity => exact calculateCareerSimilarity_le_one seeker alumni
  | skill_complement => exact calculateSkillComplement_le_one seeker alumni h
  | geographic_proximity => exact calculateGeographicProximity_le_one seeker alumni
  | mentorship_fit => exact calculateMentorshipFit_le_one seeker alumni

end AlumniMatchingEngine

namespace AlumniMatchingEngine

theorem criterionStep_totalScore (seeker : Seeker) (alumni : AlumniProfile)
    (acc : MatchAcc) (c : MatchCriteria) :
    (criterionStep seeker alumni acc c).totalScore =
      acc.totalScore + criterionScore seeker alumni c.ctype * c.weight := rfl

theorem criterionStep_totalWeight (seeker : Seeker) (alumni : AlumniProfile)
    (acc : MatchAcc) (c : MatchCriteria) :
    (criterionStep seeker alumni acc c).totalWeight = acc.totalWeight + c.weight := rfl

theorem foldl_criterionStep_bounds (seeker : Seeker) (alumni : AlumniProfile)
    (criteria : List MatchCriteria) (acc : MatchAcc)
    (hw : ∀ c ∈ criteria, 0 ≤ c.weight)
    (hs : ∀ c ∈ criteria, criterionScore seeker alumni c.ctype ≤ 1)
    (h0 : 0 ≤ acc.totalScore) (h1 : acc.totalScore ≤ acc.totalWeight) :
    0 ≤ (criteria.foldl (criterionStep seeker alumni) acc).totalScore ∧
      (criteria.foldl (criterionStep seeker alumni) acc).totalScore ≤
        (criteria.foldl (criterionStep seeker alumni) acc).totalWeight := by
  induction criteria generalizing acc with
  | nil => exact ⟨h0, h1⟩
  | cons c cs ih =>
      simp only [List.foldl_cons]
      have hwc : 0 ≤ c.weight := hw c (List.mem_cons_self c cs)
      have hsc : criterionScore seeker alumni c.ctype ≤ 1 :=
        hs c (List.mem_cons_self c cs)
      refine ih _ (fun x hx => hw x (List.mem_cons_of_mem c hx))
        (fun x hx => hs x (List.mem_cons_of_mem c hx)) ?_ ?_
      · rw [criterionStep_totalScore]
        exact add_nonneg h0 (mul_nonneg (criterionScore_nonneg seeker alumni c.ctype) hwc)
      · rw [criterionStep_totalScore, criterionStep_totalWeight]
        have : criterionScore seeker alumni c.ctype * c.weight ≤ c.weight := by
          have := mul_le_mul_of_nonneg_right hsc hwc
          rwa [one_mul] at this
        exact add_le_add h1 this

theorem runCriteria_bounds (seeker : Seeker) (alumni : AlumniProfile)
    (criteria : List MatchCriteria)
    (hw : ∀ c ∈ criteria, 0 ≤ c.weight)
    (hs : ∀ c ∈ criteria, criterionScore seeker alumni c.ctype ≤ 1) :
    0 ≤ (runCriteria seeker alumni criteria).totalScore ∧
      (runCriteria seeker alumni criteria).totalScore ≤
        (runCriteria seeker alumni criteria).totalWeight :=
  foldl_criterionStep_bounds seeker alumni criteria ⟨0, 0, [], []⟩ hw hs
    (le_refl 0) (le_refl 0)

theorem scorePasses_iff (m : AlumniMatch) :
    scorePasses m = true ↔ ∃ v, m.score = some v ∧ 0.3 < v := by
  unfold scorePasses
  cases hs : m.score with
  | none => simp
  | some v => simp [gt_iff_lt]

theorem calculateMatch_score_le_one (embed : String → List ℚ)
    (ins : AlumniProfile → Option ℝ → String) (seeker : Seeker)
    (alumni : AlumniProfile) (criteria : List MatchCriteria)
    (seekerEmbedding : List ℚ)
    (hw : ∀ c ∈ criteria, 0 ≤ c.weight)
    (hn : (alumni.skills.map (fun s => lowerStr s.name)).Nodup) :
    ∀ v, (calculateMatch embed ins seeker alumni criteria seekerEmbedding).score = some v →
      v ≤ 1 := by
  intro v hv
  unfold calculateMatch at hv
  dsimp only at hv
  rw [Option.map_eq_some'] at hv
  obtain ⟨sem, hsem, hval⟩ := hv
  obtain ⟨hsl, hsu⟩ := calculateCosineSimilarity_bounds hsem
  obtain ⟨hts0, htsw⟩ := runCriteria_bounds seeker alumni criteria hw
    (fun c _ => criterionScore_le_one seeker alumni hn c.ctype)
  rw [← hval]
  split_ifs with htw
  · have hrule : (runCriteria seeker alumni criteria).totalScore /
        (runCriteria seeker alumni criteria).totalWeight ≤ 1 := by
      rw [div_le_one htw]
      exact htsw
    have hrule2 : (((runCriteria seeker alumni criteria).totalScore /
        (runCriteria seeker alumni criteria).totalWeight : ℚ) : ℝ) ≤ 1 := by
      exact_mod_cast hrule
    linarith
  · exact hsu

theorem calculateMatch_alumni (embed : String → List ℚ)
    (ins : AlumniProfile → Option ℝ → String) (seeker : Seeker)
    (alumni : AlumniProfile) (criteria : List MatchCriteria)
    (seekerEmbedding : List ℚ) :
    (calculateMatch embed ins seeker alumni criteria seekerEmbedding).alumni = alumni := rfl

theorem matchLe_trans : ∀ a b c : AlumniMatch,
    matchLe a b = true → matchLe b c = true → matchLe a c = true := by
  intro a b c hab hbc
  unfold matchLe at hab hbc ⊢
  rw [decide_eq_true_eq] at hab hbc ⊢
  exact le_trans hbc hab

theorem matchLe_total : ∀ a b : AlumniMatch, (matchLe a b || matchLe b a) = true := by
  intro a b
  unfold matchLe
  rcases le_total (scoreValue b) (scoreValue a) with h | h <;> simp [h]

theorem findMatches_success_eq (embed : String → List ℚ)
    (ins : AlumniProfile → Option ℝ → String) (rand : ℕ → ℚ) (seeker : Seeker)
    (pool : List AlumniProfile) (criteriaOpt : Option (List MatchCriteria))
    (limitOpt : Option ℕ) :
    findMatches embed ins false rand seeker pool criteriaOpt limitOpt =
      (((pool.map (fun alumni => calculateMatch embed ins seeker alumni
          (criteriaOpt.getD getDefaultCriteria)
          (embed (createProfileText seeker)))).filter scorePasses).mergeSort
        matchLe).take (limitOpt.getD 10) := rfl

theorem mem_findMatches_success {embed : String → List ℚ}
    {ins : AlumniProfile → Option ℝ → String} {rand : ℕ → ℚ} {seeker : Seeker}
    {pool : List AlumniProfile} {criteriaOpt : Option (List MatchCriteria)}
    {limitOpt : Option ℕ} {m : AlumniMatch}
    (hm : m ∈ findMatches embed ins false rand seeker pool criteriaOpt limitOpt) :
    (∃ alumni ∈ pool, calculateMatch embed ins seeker alumni
        (criteriaOpt.getD getDefaultCriteria) (embed (createProfileText seeker)) = m) ∧
      scorePasses m = true := by
  rw [findMatches_success_eq] at hm
  have hm1 := List.mem_of_mem_take hm
  have hm2 := List.mem_mergeSort.1 hm1
  have hm3 := List.mem_filter.1 hm2
  exact ⟨List.mem_map.1 hm3.1, hm3.2⟩

theorem length_findMatches_le (embed : String → List ℚ)
    (ins : AlumniProfile → Option ℝ → String) (rand : ℕ → ℚ) (seeker : Seeker)
    (pool : List AlumniProfile) (criteriaOpt : Option (List MatchCriteria))
    (limitOpt : Option ℕ) :
    (findMatches embed ins false rand seeker pool criteriaOpt limitOpt).length ≤
      limitOpt.getD 10 := by
  rw [findMatches_success_eq]
  exact List.length_take_le _ _

theorem findMatches_sorted (embed : String → List ℚ)
    (ins : AlumniProfile → Option ℝ → String) (rand : ℕ → ℚ) (seeker : Seeker)
    (pool : List AlumniProfile) (criteriaOpt : Option (List MatchCriteria))
    (limitOpt : Option ℕ) :
    (findMatches embed ins false rand seeker pool criteriaOpt limitOpt).Pairwise
      (fun a b => scoreValue b ≤ scoreValue a) := by
  rw [findMatches_success_eq]
  apply List.Pairwise.take
  have hs := List.sorted_mergeSort matchLe_trans matchLe_total
    ((pool.map (fun alumni => calculateMatch embed ins seeker alumni
      (criteriaOpt.getD getDefaultCriteria) (embed (createProfileText seeker)))).filter
        scorePasses)
  exact hs.imp (fun h => by
    have := of_decide_eq_true h
    exact this)

end AlumniMatchingEngine

namespace MatchRoute

theorem calculateMatchScore_le_one (sem : String → String → ℝ)
    (studentProfile : StudentReq) (alumniProfile : AlumniRec)
    (criteria : List MatchCriteria) :
    calculateMatchScore sem studentProfile alumniProfile criteria ≤ 1 := by
  unfold calculateMatchScore
  exact le_trans (min_le_right _ _) (by norm_num)

theorem routeLe_trans : ∀ a b c : RouteMatch,
    routeLe a b = true → routeLe b c = true → routeLe a c = true := by
  intro a b c hab hbc
  unfold routeLe at hab hbc ⊢
  rw [decide_eq_true_eq] at hab hbc ⊢
  exact le_trans hbc hab

theorem routeLe_total : ∀ a b : RouteMatch, (routeLe a b || routeLe b a) = true := by
  intro a b
  unfold routeLe
  rcases le_total b.matchScore a.matchScore with h | h <;> simp [h]

theorem postMatches_eq (sem : String → String → ℝ) (studentProfile : StudentReq)
    (criteriaOpt : Option (List MatchCriteria)) (limitOpt : Option ℕ)
    (h : studentProfile.name ≠ "") :
    postMatches sem studentProfile criteriaOpt limitOpt =
      some (((mockAlumni.map (fun alumni =>
        { alumni := alumni
          matchScore := calculateMatchScore sem studentProfile alumni
            (criteriaOpt.getD defaultCriteria)
          matchReasons := generateMatchReasons studentProfile alumni
            (criteriaOpt.getD defaultCriteria)
            (calculateMatchScore sem studentProfile alumni
              (criteriaOpt.getD defaultCriteria)) : RouteMatch })).mergeSort
        routeLe).take (limitOpt.getD 10)) := by
  unfold postMatches
  rw [if_neg h]

theorem length_postMatches_le (sem : String → String → ℝ)
    (studentProfile : StudentReq) (criteriaOpt : Option (List MatchCriteria))
    (limitOpt : Option ℕ) :
    ((postMatches sem studentProfile criteriaOpt limitOpt).getD []).length ≤
      limitOpt.getD 10 := by
  unfold postMatches
  split_ifs with h
  · simp
  · exact List.length_take_le _ _

theorem postMatches_sorted (sem : String → String → ℝ)
    (studentProfile : StudentReq) (criteriaOpt : Option (List MatchCriteria))
    (limitOpt : Option ℕ) :
    ((postMatches sem studentProfile criteriaOpt limitOpt).getD []).Pairwise
      (fun a b => b.matchScore ≤ a.matchScore) := by
  unfold postMatches
  split_ifs with h
  · simp
  · dsimp only [Option.getD_some]
    apply List.Pairwise.take
    have hs := List.sorted_mergeSort routeLe_trans routeLe_total
      (mockAlumni.map (fun alumni =>
        let score := calculateMatchScore sem studentProfile alumni
          (criteriaOpt.getD defaultCriteria)
        { alumni := alumni
          matchScore := score
          matchReasons := generateMatchReasons studentProfile alumni
            (criteriaOpt.getD defaultCriteria) score : RouteMatch }))
    exact hs.imp (fun h => of_decide_eq_true h)

theorem mem_postMatches {sem : String → String → ℝ} {studentProfile : StudentReq}
    {criteriaOpt : Option (List MatchCriteria)} {limitOpt : Option ℕ}
    {l : List RouteMatch}
    (h : postMatches sem studentProfile criteriaOpt limitOpt = some l)
    {alumni : AlumniRec} (ha : alumni ∈ mockAlumni)
    (hlen : mockAlumni.length ≤ limitOpt.getD 10) :
    (⟨alumni, calculateMatchScore sem studentProfile alumni
        (criteriaOpt.getD defaultCriteria),
      generateMatchReasons studentProfile alumni (criteriaOpt.getD defaultCriteria)
        (calculateMatchScore sem studentProfile alumni
          (criteriaOpt.getD defaultCriteria))⟩ : RouteMatch) ∈ l := by
  unfold postMatches at h
  split_ifs at h with hname
  have hl := Option.some.inj h
  subst hl
  rw [List.take_of_length_le]
  · rw [List.mem_mergeSort]
    exact List.mem_map.2 ⟨alumni, ha, rfl⟩
  · rw [List.length_mergeSort, List.length_map]
    exact hlen

end MatchRoute

theorem length_filter_mono {α : Type} (l : List α) (p q : α → Bool)
    (h : ∀ x ∈ l, p x = true → q x = true) :
    (l.filter p).length ≤ (l.filter q).length := by
  rw [← List.countP_eq_length_filter, ← List.countP_eq_length_filter]
  exact List.countP_mono_left h

namespace AlumniMatchingEngine

theorem getMockEmbedding_getD (t : String) {i : ℕ} (h : i < 100) :
    (getMockEmbedding t).getD i 0 =
      (((simpleHash t + i) % 1000 : ℕ) : ℚ) / 1000 - 0.5 := by
  unfold getMockEmbedding
  rw [List.getD_eq_getElem?_getD, List.getElem?_map, List.getElem?_range h]
  rfl

theorem getMockEmbedding_entry_bounds (t : String) {i : ℕ} (h : i < 100) :
    -(1 / 2) ≤ (getMockEmbedding t).getD i 0 ∧ (getMockEmbedding t).getD i 0 < 1 / 2 := by
  rw [getMockEmbedding_getD t h]
  have h1 : (simpleHash t + i) % 1000 < 1000 := Nat.mod_lt _ (by norm_num)
  have h2 : (0 : ℚ) ≤ (((simpleHash t + i) % 1000 : ℕ) : ℚ) := Nat.cast_nonneg _
  have h3 : (((simpleHash t + i) % 1000 : ℕ) : ℚ) < 1000 := by exact_mod_cast h1
  constructor <;> [linarith; linarith]

theorem runCriteria_totalWeight (seeker : Seeker) (alumni : AlumniProfile)
    (criteria : List MatchCriteria) :
    (runCriteria seeker alumni criteria).totalWeight =
      (criteria.map (fun c => c.weight)).sum := by
  unfold runCriteria
  have key : ∀ (cs : List MatchCriteria) (acc : MatchAcc),
      (cs.foldl (criterionStep seeker alumni) acc).totalWeight =
        acc.totalWeight + (cs.map (fun c => c.weight)).sum := by
    intro cs
    induction cs with
    | nil => intro acc; simp
    | cons c cs ih =>
        intro acc
        simp only [List.foldl_cons, List.map_cons, List.sum_cons]
        rw [ih, criterionStep_totalWeight]
        ring
  rw [key]
  simp

theorem findMatches_err (embed : String → List ℚ)
    (ins : AlumniProfile → Option ℝ → String) (rand : ℕ → ℚ) (seeker : Seeker)
    (pool : List AlumniProfile) (criteriaOpt : Option (List MatchCriteria))
    (limitOpt : Option ℕ) :
    findMatches embed ins true rand seeker pool criteriaOpt limitOpt =
      getFallbackMatches pool (limitOpt.getD 10) rand := rfl

theorem getFallbackMatches_map_alumni (pool : List AlumniProfile) (limit : ℕ)
    (rand : ℕ → ℚ) :
    (getFallbackMatches pool limit rand).map (fun m => m.alumni) = pool.take limit := by
  unfold getFallbackMatches
  apply List.ext_getElem
  · simp
  · intro i h1 h2
    simp [List.getElem_mapIdx]

theorem mem_getFallbackMatches {pool : List AlumniProfile} {limit : ℕ}
    {rand : ℕ → ℚ} {m : AlumniMatch} (hm : m ∈ getFallbackMatches pool limit rand) :
    ∃ i al, m = (⟨al, some (((0.5 + rand i * 0.3 : ℚ) : ℝ)),
      ["Profile compatibility", "Shared academic background"],
      [⟨.career_similarity, 1.0⟩],
      "Good potential for professional networking and career insights."⟩ : AlumniMatch) := by
  unfold getFallbackMatches at hm
  rw [List.mem_mapIdx] at hm
  obtain ⟨i, hi, heq⟩ := hm
  exact ⟨i, (pool.take limit)[i], heq.symm⟩

end AlumniMatchingEngine

namespace MatchRoute

theorem mem_postMatches_getD {sem : String → String → ℝ}
    {studentProfile : StudentReq} {criteriaOpt : Option (List MatchCriteria)}
    {limitOpt : Option ℕ} {m : RouteMatch}
    (hm : m ∈ (postMatches sem studentProfile criteriaOpt limitOpt).getD []) :
    ∃ alumni ∈ mockAlumni, m.matchScore =
      calculateMatchScore sem studentProfile alumni (criteriaOpt.getD defaultCriteria) := by
  unfold postMatches at hm
  split_ifs at hm with h
  · simp at hm
  · rw [Option.getD_some] at hm
    have hm1 := List.mem_of_mem_take hm
    have hm2 := List.mem_mergeSort.1 hm1
    obtain ⟨alumni, ha, heq⟩ := List.mem_map.1 hm2
    exact ⟨alumni, ha, by rw [← heq]⟩

end MatchRoute

theorem div_le_div_same_den {a b c : ℚ} (h : a ≤ b) (hc : 0 < c) : a / c ≤ b / c := by
  rw [div_eq_mul_inv, div_eq_mul_inv]
  exact mul_le_mul_of_nonneg_right h (inv_nonneg.2 hc.le)

/-- C5 counterexample: on the zero vector (zero norm, equal lengths) the
unguarded cosine of AlumniMatchingEngine divides by zero and produces a
non-real result (none), not 0 as the claim states. -/
theorem C5_counterexample :
    sumSq [(0 : ℚ)] = 0 ∧
      AlumniMatchingEngine.calculateCosineSimilarity [(0 : ℚ)] [(0 : ℚ)] = none := by
  have hz : sumSq [(0 : ℚ)] = 0 := by simp [sumSq, dotList]
  refine ⟨hz, ?_⟩
  unfold AlumniMatchingEngine.calculateCosineSimilarity
  rw [if_neg (by simp), if_pos (Or.inl hz)]

/-- C5 amended: the two guarded cosine implementations (the one of
IntelligentMatchingEngine and the one inside the route's
calculateSemanticSimilarity) return 0 whenever either input vector has
zero norm and never divide by zero; the unguarded one of
AlumniMatchingEngine instead divides by zero on equal-length zero-norm
inputs and its result is not a real number (none). -/
theorem C5_zero_norm_guards :
    ∀ a b : List ℚ, sumSq a = 0 ∨ sumSq b = 0 →
      IntelligentMatchingEngine.calculateCosineSimilarity a b = 0 ∧
      MatchRoute.semanticCosine a b = 0 ∧
      (a.length = b.length → AlumniMatchingEngine.calculateCosineSimilarity a b = none) := by
  intro a b h
  refine ⟨?_, ?_, ?_⟩
  · unfold IntelligentMatchingEngine.calculateCosineSimilarity
    by_cases h1 : a.length ≠ b.length
    · rw [if_pos h1]
    · rw [if_neg h1, if_pos h]
  · unfold MatchRoute.semanticCosine
    dsimp only
    rw [if_pos]
    rcases h with h | h
    · exact Or.inl (by rw [h]; push_cast; exact Real.sqrt_zero)
    · exact Or.inr (by rw [h]; push_cast; exact Real.sqrt_zero)
  · intro hlen
    unfold AlumniMatchingEngine.calculateCosineSimilarity
    rw [if_neg (by simp [hlen]), if_pos h]

/-- C5 witness: the guards at the concrete zero vector. -/
theorem C5_zero_norm_guards_witness :
    IntelligentMatchingEngine.calculateCosineSimilarity [(0 : ℚ)] [(0 : ℚ)] = 0 ∧
      MatchRoute.semanticCosine [(0 : ℚ)] [(0 : ℚ)] = 0 ∧
      ([(0 : ℚ)].length = [(0 : ℚ)].length →
        AlumniMatchingEngine.calculateCosineSimilarity [(0 : ℚ)] [(0 : ℚ)] = none) :=
  C5_zero_norm_guards [(0 : ℚ)] [(0 : ℚ)] (Or.inl (by simp [sumSq, dotList]))

/-- C6 counterexample: the geographic proximity of AlumniMatchingEngine
returns 0 for the two non-empty locations San Francisco, CA and
Boston, MA — the four-tier scheme with minimum 0.2 exists only in the
route implementation. -/
theorem C6_counterexample :
    AlumniMatchingEngine.extractLocation sfSeeker ≠ "" ∧
      bostonAlumni.workLocation.getD "" ≠ "" ∧
      AlumniMatchingEngine.calculateGeographicProximity sfSeeker bostonAlumni = 0 := by
  refine ⟨by decide, by decide, ?_⟩
  unfold AlumniMatchingEngine.calculateGeographicProximity
  dsimp only
  rw [if_neg (by decide), if_neg (by decide), if_neg (by decide)]
  norm_num

/-- C6 amended: the route's calculateGeographicProximity realises the
four-tier scheme of the claim: its value is always one of 1, 0.7, 0.5 and
0.2 (never 0): 1 on case-insensitive equality, 0.7 on an equal trailing
state token, 0.5 on region co-membership, 0.2 otherwise; the
AlumniMatchingEngine variant does not (see the counterexample). -/
theorem C6_route_geo_tiers :
    ∀ location1 location2 : String,
      (MatchRoute.calculateGeographicProximity location1 location2 = 1 ∨
       MatchRoute.calculateGeographicProximity location1 location2 = 0.7 ∨
       MatchRoute.calculateGeographicProximity location1 location2 = 0.5 ∨
       MatchRoute.calculateGeographicProximity location1 location2 = 0.2) ∧
      MatchRoute.calculateGeographicProximity location1 location2 ≠ 0 ∧
      (lowerStr location1 = lowerStr location2 →
        MatchRoute.calculateGeographicProximity location1 location2 = 1) ∧
      (lowerStr location1 ≠ lowerStr location2 →
        MatchRoute.getState (lowerStr location1) = MatchRoute.getState (lowerStr location2) →
        MatchRoute.calculateGeographicProximity location1 location2 = 0.7) ∧
      (lowerStr location1 ≠ lowerStr location2 →
        MatchRoute.getState (lowerStr location1) ≠ MatchRoute.getState (lowerStr location2) →
        MatchRoute.sameRegion (MatchRoute.getState (lowerStr location1))
          (MatchRoute.getState (lowerStr location2)) = true →
        MatchRoute.calculateGeographicProximity location1 location2 = 0.5) ∧
      (lowerStr location1 ≠ lowerStr location2 →
        MatchRoute.getState (lowerStr location1) ≠ MatchRoute.getState (lowerStr location2) →
        MatchRoute.sameRegion (MatchRoute.getState (lowerStr location1))
          (MatchRoute.getState (lowerStr location2)) = false →
        MatchRoute.calculateGeographicProximity location1 location2 = 0.2) := by
  intro location1 location2
  refine ⟨?_, ?_, ?_, ?_, ?_, ?_⟩
  · unfold MatchRoute.calculateGeographicProximity
    dsimp only
    split_ifs <;> norm_num
  · unfold MatchRoute.calculateGeographicProximity
    dsimp only
    split_ifs <;> norm_num
  · intro heq
    unfold MatchRoute.calculateGeographicProximity
    dsimp only
    rw [if_pos heq]
    norm_num
  · intro hne hstate
    unfold MatchRoute.calculateGeographicProximity
    dsimp only
    rw [if_neg hne, if_pos hstate]
  · intro hne hstate hreg
    unfold MatchRoute.calculateGeographicProximity
    dsimp only
    rw [if_neg hne, if_neg hstate, if_pos hreg]
  · intro hne hstate hreg
    unfold MatchRoute.calculateGeographicProximity
    dsimp only
    rw [if_neg hne, if_neg hstate, if_neg (by simp [hreg])]

/-- C6 witness: the spec scenario — San Francisco vs San Francisco gives
1, vs Los Angeles (same state) gives 0.7, vs Boston (different region)
gives 0.2. -/
theorem C6_route_geo_tiers_witness :
    MatchRoute.calculateGeographicProximity "San Francisco, CA" "San Francisco, CA" = 1 ∧
      MatchRoute.calculateGeographicProximity "San Francisco, CA" "Los Angeles, CA" = 0.7 ∧
      MatchRoute.calculateGeographicProximity "San Francisco, CA" "Boston, MA" = 0.2 :=
  ⟨(C6_route_geo_tiers "San Francisco, CA" "San Francisco, CA").2.2.1 (by decide),
   (C6_route_geo_tiers "San Francisco, CA" "Los Angeles, CA").2.2.2.1 (by decide) (by decide),
   (C6_route_geo_tiers "San Francisco, CA" "Boston, MA").2.2.2.2.2 (by decide) (by decide)
     (by decide)⟩

/-- C7 counterexample: IntelligentMatchingEngine.calculateMentorshipFit
returns 0.1, not 0, for a mentorship-context request against a candidate
who is not mentorship-available. -/
theorem C7_counterexample :
    nonMentorCandidate.isMentor = false ∧
      IntelligentMatchingEngine.calculateMentorshipFit mentorshipContext
        nonMentorCandidate = 0.1 ∧
      IntelligentMatchingEngine.calculateMentorshipFit mentorshipContext
        nonMentorCandidate ≠ 0 := by
  have hv : IntelligentMatchingEngine.calculateMentorshipFit mentorshipContext
      nonMentorCandidate = 0.1 := by
    unfold IntelligentMatchingEngine.calculateMentorshipFit
    rw [if_neg (by decide), if_pos (by decide)]
  exact ⟨rfl, hv, by rw [hv]; norm_num⟩

/-- C7 amended: AlumniMatchingEngine.calculateMentorshipFit is exactly 0
for a non-mentor candidate, for every seeker; for a mentor it is the 0.5
base plus the seeking, experience-gap and category-alignment bonuses,
clamped to 1.  The IntelligentMatchingEngine variant violates the claim
(see the counterexample). -/
theorem C7_mentorship_fit :
    ∀ (seeker : Seeker) (alumni : AlumniProfile),
      (alumni.isMentor = false →
        AlumniMatchingEngine.calculateMentorshipFit seeker alumni = 0) ∧
      (alumni.isMentor = true →
        AlumniMatchingEngine.calculateMentorshipFit seeker alumni =
          min (0.5 + AlumniMatchingEngine.seekingMentorshipBonus seeker +
            AlumniMatchingEngine.experienceGapBonus seeker alumni +
            AlumniMatchingEngine.mentorCategoryBonus seeker alumni) 1) := by
  intro seeker alumni
  constructor
  · intro h
    unfold AlumniMatchingEngine.calculateMentorshipFit
    rw [if_pos (by simp [h])]
  · intro h
    unfold AlumniMatchingEngine.calculateMentorshipFit
    rw [if_neg (by simp [h])]
    norm_num

/-- C7 witness: concrete non-mentor and mentor candidates. -/
theorem C7_mentorship_fit_witness :
    AlumniMatchingEngine.calculateMentorshipFit sfSeeker nonMentorCandidate = 0 ∧
      AlumniMatchingEngine.calculateMentorshipFit sfSeeker
          { nonMentorCandidate with isMentor := true } =
        min (0.5 + AlumniMatchingEngine.seekingMentorshipBonus sfSeeker +
          AlumniMatchingEngine.experienceGapBonus sfSeeker
            { nonMentorCandidate with isMentor := true } +
          AlumniMatchingEngine.mentorCategoryBonus sfSeeker
            { nonMentorCandidate with isMentor := true }) 1 :=
  ⟨(C7_mentorship_fit sfSeeker nonMentorCandidate).1 rfl,
   (C7_mentorship_fit sfSeeker { nonMentorCandidate with isMentor := true }).2 rfl⟩

/-- C8: the deterministic fallback embedding is a pure function of its
input text (equal texts yield element-wise identical vectors, across any
two evaluations), the vector has the fixed length 100, and every entry
lies in the half-open interval [-0.5, 0.5). -/
theorem C8_fallback_embedding_pure_bounded :
    ∀ t u : String,
      (t = u → AlumniMatchingEngine.getMockEmbedding t =
        AlumniMatchingEngine.getMockEmbedding u) ∧
      (AlumniMatchingEngine.getMockEmbedding t).length = 100 ∧
      ∀ i : ℕ, i < 100 →
        -(1 / 2) ≤ (AlumniMatchingEngine.getMockEmbedding t).getD i 0 ∧
          (AlumniMatchingEngine.getMockEmbedding t).getD i 0 < 1 / 2 := by
  intro t u
  exact ⟨fun h => by rw [h], AlumniMatchingEngine.length_getMockEmbedding t,
    fun i hi => AlumniMatchingEngine.getMockEmbedding_entry_bounds t hi⟩

/-- C8 witness: the embedding of the text X, at entry 0. -/
theorem C8_fallback_embedding_pure_bounded_witness :
    AlumniMatchingEngine.getMockEmbedding "X" = AlumniMatchingEngine.getMockEmbedding "X" ∧
      -(1 / 2) ≤ (AlumniMatchingEngine.getMockEmbedding "X").getD 0 0 ∧
      (AlumniMatchingEngine.getMockEmbedding "X").getD 0 0 < 1 / 2 :=
  ⟨(C8_fallback_embedding_pure_bounded "X" "X").1 rfl,
   (C8_fallback_embedding_pure_bounded "X" "X").2.2 0 (by norm_num)⟩

/-- C9: skill complementarity is monotone under adding to the candidate a
skill already owned by the seeker, in both implementations (the engine's
calculateSkillComplement and the route's calculateSkillsMatch). -/
theorem C9_skill_monotonicity :
    ∀ (seeker : Seeker) (alumni : AlumniProfile) (sk : Skill)
      (studentSkills alumniSkills : List String) (s : String),
      (lowerStr sk.name ∈ (Seeker.skills seeker).map (fun x => lowerStr x.name) →
        AlumniMatchingEngine.calculateSkillComplement seeker alumni ≤
          AlumniMatchingEngine.calculateSkillComplement seeker
            { alumni with skills := sk :: alumni.skills }) ∧
      (lowerStr s ∈ studentSkills.map lowerStr →
        MatchRoute.calculateSkillsMatch studentSkills alumniSkills ≤
          MatchRoute.calculateSkillsMatch studentSkills (s :: alumniSkills)) := by
  intro seeker alumni sk studentSkills alumniSkills s
  constructor
  · intro _hmem
    unfold AlumniMatchingEngine.calculateSkillComplement
    dsimp only
    simp only [List.map_cons]
    have hov : ((((Seeker.skills seeker).map (fun x => lowerStr x.name)).filter
        (fun skill => ((alumni.skills.map (fun x => lowerStr x.name)).contains skill))).length
          : ℚ) ≤
        ((((Seeker.skills seeker).map (fun x => lowerStr x.name)).filter
          (fun skill => ((lowerStr sk.name :: alumni.skills.map
            (fun x => lowerStr x.name)).contains skill))).length : ℚ) := by
      have := length_filter_mono ((Seeker.skills seeker).map (fun x => lowerStr x.name))
        (fun skill => ((alumni.skills.map (fun x => lowerStr x.name)).contains skill))
        (fun skill => ((lowerStr sk.name :: alumni.skills.map
          (fun x => lowerStr x.name)).contains skill))
        (fun x _ hx => by
          show (lowerStr sk.name ::
            alumni.skills.map (fun y => lowerStr y.name)).contains x = true
          have hx2 : (alumni.skills.map (fun y => lowerStr y.name)).contains x = true := hx
          rw [List.contains_cons, hx2, Bool.or_true])
      exact_mod_cast this
    have hcomp : (((alumni.skills.map (fun x => lowerStr x.name)).filter
        (fun skill => ((AlumniMatchingEngine.inferNeededSkills seeker).contains
          skill))).length : ℚ) ≤
        (((lowerStr sk.name :: alumni.skills.map (fun x => lowerStr x.name)).filter
          (fun skill => ((AlumniMatchingEngine.inferNeededSkills seeker).contains
            skill))).length : ℚ) := by
      rw [List.filter_cons]
      split_ifs
      · simp only [List.length_cons]
        exact_mod_cast Nat.le_succ _
      · exact le_refl _
    have hd1 : (0 : ℚ) < ((max ((Seeker.skills seeker).map
        (fun x => lowerStr x.name)).length 1 : ℕ) : ℚ) := by
      have : (1 : ℕ) ≤ max ((Seeker.skills seeker).map (fun x => lowerStr x.name)).length 1 :=
        le_max_right _ _
      exact_mod_cast Nat.lt_of_lt_of_le Nat.zero_lt_one this
    have hd2 : (0 : ℚ) < ((max (AlumniMatchingEngine.inferNeededSkills seeker).length 1
        : ℕ) : ℚ) := by
      have : (1 : ℕ) ≤ max (AlumniMatchingEngine.inferNeededSkills seeker).length 1 :=
        le_max_right _ _
      exact_mod_cast Nat.lt_of_lt_of_le Nat.zero_lt_one this
    exact add_le_add
      (mul_le_mul_of_nonneg_right (div_le_div_same_den hov hd1) (by norm_num))
      (mul_le_mul_of_nonneg_right (div_le_div_same_den hcomp hd2) (by norm_num))
  · intro _hmem
    unfold MatchRoute.calculateSkillsMatch
    dsimp only
    simp only [List.map_cons]
    have hmatch : (((studentSkills.map lowerStr).filter (fun skill =>
        ((alumniSkills.map lowerStr).any (fun alumniSkill =>
          jsIncludes alumniSkill skill || jsIncludes skill alumniSkill)))).length : ℚ) ≤
        (((studentSkills.map lowerStr).filter (fun skill =>
          ((lowerStr s :: alumniSkills.map lowerStr).any (fun alumniSkill =>
            jsIncludes alumniSkill skill || jsIncludes skill alumniSkill)))).length : ℚ) := by
      have := length_filter_mono (studentSkills.map lowerStr)
        (fun skill => ((alumniSkills.map lowerStr).any (fun alumniSkill =>
          jsIncludes alumniSkill skill || jsIncludes skill alumniSkill)))
        (fun skill => ((lowerStr s :: alumniSkills.map lowerStr).any (fun alumniSkill =>
          jsIncludes alumniSkill skill || jsIncludes skill alumniSkill)))
        (fun x _ hx => by
          show ((lowerStr s :: alumniSkills.map lowerStr).any (fun alumniSkill =>
            jsIncludes alumniSkill x || jsIncludes x alumniSkill)) = true
          have hx2 : ((alumniSkills.map lowerStr).any (fun alumniSkill =>
            jsIncludes alumniSkill x || jsIncludes x alumniSkill)) = true := hx
          rw [List.any_cons, hx2, Bool.or_true])
      exact_mod_cast this
    have hcomp : (((alumniSkills.map lowerStr).filter (fun skill =>
        !((studentSkills.map lowerStr).any (fun studentSkill =>
          jsIncludes studentSkill skill || jsIncludes skill studentSkill)))).length : ℚ) ≤
        (((lowerStr s :: alumniSkills.map lowerStr).filter (fun skill =>
          !((studentSkills.map lowerStr).any (fun studentSkill =>
            jsIncludes studentSkill skill || jsIncludes skill studentSkill)))).length : ℚ) := by
      rw [List.filter_cons]
      split_ifs
      · simp only [List.length_cons]
        exact_mod_cast Nat.le_succ _
      · exact le_refl _
    have hd1 : (0 : ℚ) < ((max studentSkills.length 1 : ℕ) : ℚ) := by
      have : (1 : ℕ) ≤ max studentSkills.length 1 := le_max_right _ _
      exact_mod_cast Nat.lt_of_lt_of_le Nat.zero_lt_one this
    exact add_le_add
      (mul_le_mul_of_nonneg_right (div_le_div_same_den hmatch hd1) (by norm_num))
      (mul_le_mul_of_nonneg_right
        (min_le_min (div_le_div_same_den hcomp (by norm_num)) (le_refl 1)) (by norm_num))

/-- C9 witness: adding the shared skill react to a candidate does not
decrease either skill sub-score at the concrete scenario. -/
theorem C9_skill_monotonicity_witness :
    (AlumniMatchingEngine.calculateSkillComplement dupSkillSeeker bostonAlumni ≤
      AlumniMatchingEngine.calculateSkillComplement dupSkillSeeker
        { bostonAlumni with skills := (⟨"react", "Expert"⟩ : Skill) :: bostonAlumni.skills }) ∧
      MatchRoute.calculateSkillsMatch ["Python"] [] ≤
        MatchRoute.calculateSkillsMatch ["Python"] ["Python"] :=
  ⟨(C9_skill_monotonicity dupSkillSeeker bostonAlumni ⟨"react", "Expert"⟩ ["Python"] []
      "Python").1 (by decide),
   (C9_skill_monotonicity dupSkillSeeker bostonAlumni ⟨"react", "Expert"⟩ ["Python"] []
      "Python").2 (by decide)⟩

/-- C10: when the body of findMatches throws, the call returns the first
limit candidates of the pool in input order, each carrying a score in
[0.5, 0.8) built from the Math.random draw, the fixed two-element reasons
list and the fixed insight string — no threshold filter and no sorting is
applied to this fallback list. -/
theorem C10_fallback_on_error :
    ∀ (embed : String → List ℚ) (ins : AlumniProfile → Option ℝ → String)
      (rand : ℕ → ℚ) (seeker : Seeker) (pool : List AlumniProfile)
      (criteriaOpt : Option (List MatchCriteria)) (limitOpt : Option ℕ),
      (∀ i : ℕ, 0 ≤ rand i ∧ rand i < 1) →
      (AlumniMatchingEngine.findMatches embed ins true rand seeker pool criteriaOpt
          limitOpt).map (fun m => m.alumni) = pool.take (limitOpt.getD 10) ∧
      ∀ m ∈ AlumniMatchingEngine.findMatches embed ins true rand seeker pool
          criteriaOpt limitOpt,
        ∃ v : ℝ, m.score = some v ∧ 1 / 2 ≤ v ∧ v < 4 / 5 ∧
          m.reasons = ["Profile compatibility", "Shared academic background"] ∧
          m.matchTypes = [⟨.career_similarity, 1.0⟩] ∧
          m.aiInsights =
            "Good potential for professional networking and career insights." := by
  intro embed ins rand seeker pool criteriaOpt limitOpt hr
  rw [AlumniMatchingEngine.findMatches_err]
  refine ⟨AlumniMatchingEngine.getFallbackMatches_map_alumni pool (limitOpt.getD 10) rand, ?_⟩
  intro m hm
  obtain ⟨i, al, rfl⟩ := AlumniMatchingEngine.mem_getFallbackMatches hm
  have h1 : (1 / 2 : ℚ) ≤ 0.5 + rand i * 0.3 := by
    have := mul_nonneg (hr i).1 (by norm_num : (0 : ℚ) ≤ 0.3)
    linarith
  have h2 : (0.5 + rand i * 0.3 : ℚ) < 4 / 5 := by
    have := (mul_lt_mul_of_pos_right (hr i).2 (by norm_num : (0 : ℚ) < 0.3))
    rw [one_mul] at this
    linarith
  refine ⟨_, rfl, ?_, ?_, rfl, rfl, rfl⟩
  · have h1r : (((1 : ℚ) / 2 : ℚ) : ℝ) ≤ ((0.5 + rand i * 0.3 : ℚ) : ℝ) := Rat.cast_le.2 h1
    push_cast at h1r ⊢
    linarith
  · have h2r : (((0.5 + rand i * 0.3 : ℚ) : ℚ) : ℝ) < (((4 : ℚ) / 5 : ℚ) : ℝ) :=
      Rat.cast_lt.2 h2
    push_cast at h2r ⊢
    linarith

/-- C10 witness: the fallback at a concrete pool, limit and random draw. -/
theorem C10_fallback_on_error_witness :
    (AlumniMatchingEngine.findMatches AlumniMatchingEngine.getMockEmbedding insEmpty true
        randZero sfSeeker [bostonAlumni] none none).map (fun m => m.alumni) =
      [bostonAlumni].take 10 ∧
      ∀ m ∈ AlumniMatchingEngine.findMatches AlumniMatchingEngine.getMockEmbedding insEmpty
          true randZero sfSeeker [bostonAlumni] none none,
        ∃ v : ℝ, m.score = some v ∧ 1 / 2 ≤ v ∧ v < 4 / 5 ∧
          m.reasons = ["Profile compatibility", "Shared academic background"] ∧
          m.matchTypes = [⟨.career_similarity, 1.0⟩] ∧
          m.aiInsights =
            "Good potential for professional networking and career insights." :=
  C10_fallback_on_error AlumniMatchingEngine.getMockEmbedding insEmpty randZero sfSeeker
    [bostonAlumni] none none (fun i => ⟨le_refl 0, by norm_num [randZero]⟩)

/-- C4 counterexample: the route's calculateMatchScore never blends and
never falls back to the semantic similarity: with an empty criteria list
it returns 0 even though the semantic-similarity oracle returns 1/2 on
every pair of texts. -/
theorem C4_counterexample :
    MatchRoute.calculateMatchScore semHalf farStudent MatchRoute.sarahChen [] = 0 ∧
      (∀ t1 t2 : String, semHalf t1 t2 = 1 / 2) ∧ (0 : ℝ) ≠ 1 / 2 := by
  refine ⟨?_, fun t1 t2 => rfl, by norm_num⟩
  unfold MatchRoute.calculateMatchScore
  dsimp only [List.foldl_nil]
  norm_num

/-- C4 amended: in AlumniMatchingEngine.calculateMatch the final score
equals the cosine similarity of the two embeddings exactly when the sum
of the criterion weights is zero (in particular for an empty criteria
list), and equals ruleScore * 0.7 + semantic * 0.3 when the sum is
positive, where ruleScore is the weight-normalized criteria score.  The
route's calculateMatchScore does not behave this way (see the
counterexample). -/
theorem C4_zero_weight_semantic_fallback :
    ∀ (embed : String → List ℚ) (ins : AlumniProfile → Option ℝ → String)
      (seeker : Seeker) (alumni : AlumniProfile) (criteria : List MatchCriteria)
      (seekerEmbedding : List ℚ),
      ((criteria.map (fun c => c.weight)).sum = 0 →
        (AlumniMatchingEngine.calculateMatch embed ins seeker alumni criteria
            seekerEmbedding).score =
          AlumniMatchingEngine.calculateCosineSimilarity seekerEmbedding
            (embed (AlumniMatchingEngine.createProfileText (Seeker.alum alumni)))) ∧
      (0 < (criteria.map (fun c => c.weight)).sum →
        (AlumniMatchingEngine.calculateMatch embed ins seeker alumni criteria
            seekerEmbedding).score =
          (AlumniMatchingEngine.calculateCosineSimilarity seekerEmbedding
            (embed (AlumniMatchingEngine.createProfileText (Seeker.alum alumni)))).map
            (fun sem =>
              (((AlumniMatchingEngine.runCriteria seeker alumni criteria).totalScore /
                (AlumniMatchingEngine.runCriteria seeker alumni criteria).totalWeight
                : ℚ) : ℝ) * 0.7 + sem * 0.3)) := by
  intro embed ins seeker alumni criteria seekerEmbedding
  constructor
  · intro h0
    have htw : (AlumniMatchingEngine.runCriteria seeker alumni criteria).totalWeight = 0 := by
      rw [AlumniMatchingEngine.runCriteria_totalWeight]
      exact h0
    unfold AlumniMatchingEngine.calculateMatch
    dsimp only
    simp [htw]
  · intro hpos
    have htw : 0 < (AlumniMatchingEngine.runCriteria seeker alumni criteria).totalWeight := by
      rw [AlumniMatchingEngine.runCriteria_totalWeight]
      exact hpos
    unfold AlumniMatchingEngine.calculateMatch
    dsimp only
    simp [htw]

/-- C4 witness: the empty criteria list (weight sum zero) and the default
criteria list (weight sum one) at a concrete seeker and candidate. -/
theorem C4_zero_weight_semantic_fallback_witness :
    (AlumniMatchingEngine.calculateMatch AlumniMatchingEngine.getMockEmbedding insEmpty
        sfSeeker bostonAlumni [] (AlumniMatchingEngine.getMockEmbedding
          (AlumniMatchingEngine.createProfileText sfSeeker))).score =
      AlumniMatchingEngine.calculateCosineSimilarity
        (AlumniMatchingEngine.getMockEmbedding
          (AlumniMatchingEngine.createProfileText sfSeeker))
        (AlumniMatchingEngine.getMockEmbedding
          (AlumniMatchingEngine.createProfileText (Seeker.alum bostonAlumni))) ∧
    (AlumniMatchingEngine.calculateMatch AlumniMatchingEngine.getMockEmbedding insEmpty
        sfSeeker bostonAlumni AlumniMatchingEngine.getDefaultCriteria
        (AlumniMatchingEngine.getMockEmbedding
          (AlumniMatchingEngine.createProfileText sfSeeker))).score =
      (AlumniMatchingEngine.calculateCosineSimilarity
        (AlumniMatchingEngine.getMockEmbedding
          (AlumniMatchingEngine.createProfileText sfSeeker))
        (AlumniMatchingEngine.getMockEmbedding
          (AlumniMatchingEngine.createProfileText (Seeker.alum bostonAlumni)))).map
        (fun sem =>
          (((AlumniMatchingEngine.runCriteria sfSeeker bostonAlumni
              AlumniMatchingEngine.getDefaultCriteria).totalScore /
            (AlumniMatchingEngine.runCriteria sfSeeker bostonAlumni
              AlumniMatchingEngine.getDefaultCriteria).totalWeight : ℚ) : ℝ) * 0.7 +
            sem * 0.3) :=
  ⟨(C4_zero_weight_semantic_fallback AlumniMatchingEngine.getMockEmbedding insEmpty
      sfSeeker bostonAlumni [] _).1 (by simp),
   (C4_zero_weight_semantic_fallback AlumniMatchingEngine.getMockEmbedding insEmpty
      sfSeeker bostonAlumni AlumniMatchingEngine.getDefaultCriteria _).2
     (by norm_num [AlumniMatchingEngine.getDefaultCriteria])⟩

/-- C1 counterexample: calculateMatch applies no clamp, and the
skill-complement sub-score exceeds 1 when the candidate lists a needed
skill repeatedly, so findMatches returns a score greater than 1: a
computer-science seeker against a candidate whose skill list holds
thirteen copies of react, under a weight-1 skill_complement criterion. -/
theorem C1_counterexample :
    ∃ m ∈ AlumniMatchingEngine.findMatches AlumniMatchingEngine.getMockEmbedding insEmpty
        false randZero dupSkillSeeker [dupSkillAlumni] (some skillOnlyCriteria) none,
      ∃ v, m.score = some v ∧ 1 < v := by
  obtain ⟨c, hc, hcl, hcu⟩ := AlumniMatchingEngine.calculateCosineSimilarity_mock_some
    (AlumniMatchingEngine.createProfileText dupSkillSeeker)
    (AlumniMatchingEngine.createProfileText (Seeker.alum dupSkillAlumni))
  have hskill : AlumniMatchingEngine.calculateSkillComplement dupSkillSeeker
      dupSkillAlumni = 49 / 25 := by
    unfold AlumniMatchingEngine.calculateSkillComplement
    simp +decide [dupSkillSeeker, dupSkillAlumni, Seeker.skills,
      AlumniMatchingEngine.inferNeededSkills, Seeker.department, List.replicate]
    norm_num
  have hts : (AlumniMatchingEngine.runCriteria dupSkillSeeker dupSkillAlumni
      skillOnlyCriteria).totalScore = 49 / 25 := by
    simp only [AlumniMatchingEngine.runCriteria, skillOnlyCriteria, List.foldl_cons,
      List.foldl_nil, AlumniMatchingEngine.criterionStep_totalScore,
      AlumniMatchingEngine.criterionScore, hskill]
    norm_num
  have htw : (AlumniMatchingEngine.runCriteria dupSkillSeeker dupSkillAlumni
      skillOnlyCriteria).totalWeight = 1 := by
    simp only [AlumniMatchingEngine.runCriteria, skillOnlyCriteria, List.foldl_cons,
      List.foldl_nil, AlumniMatchingEngine.criterionStep_totalWeight]
    norm_num
  set m := AlumniMatchingEngine.calculateMatch AlumniMatchingEngine.getMockEmbedding
    insEmpty dupSkillSeeker dupSkillAlumni skillOnlyCriteria
    (AlumniMatchingEngine.getMockEmbedding
      (AlumniMatchingEngine.createProfileText dupSkillSeeker)) with hmdef
  have hrule : ((AlumniMatchingEngine.runCriteria dupSkillSeeker dupSkillAlumni
      skillOnlyCriteria).totalScore /
      (AlumniMatchingEngine.runCriteria dupSkillSeeker dupSkillAlumni
        skillOnlyCriteria).totalWeight : ℚ) = 49 / 25 := by
    rw [hts, htw]
    norm_num
  have hscore : m.score = some (((49 / 25 : ℚ) : ℝ) * 0.7 + c * 0.3) := by
    rw [hmdef]
    unfold AlumniMatchingEngine.calculateMatch
    dsimp only
    rw [hc, Option.map_some']
    rw [if_pos (by rw [htw]; norm_num), hrule]
  have hv1 : (1 : ℝ) < ((49 / 25 : ℚ) : ℝ) * 0.7 + c * 0.3 := by
    push_cast
    linarith
  have hpass : AlumniMatchingEngine.scorePasses m = true := by
    rw [AlumniMatchingEngine.scorePasses_iff]
    exact ⟨_, hscore, by push_cast; linarith⟩
  refine ⟨m, ?_, _, hscore, hv1⟩
  rw [AlumniMatchingEngine.findMatches_success_eq]
  simp only [Option.getD_some, Option.getD_none, List.map_cons, List.map_nil]
  rw [← hmdef]
  rw [List.filter_cons_of_pos hpass, List.filter_nil]
  rw [List.mergeSort_of_sorted (by simp : List.Pairwise _ [m])]
  rw [List.take_of_length_le (by simp)]
  exact List.mem_singleton_self m

/-- C1 amended: with non-negative criterion weights and candidates whose
lowercased skill lists are duplicate-free, every score returned by
findMatches lies in [0, 1] (indeed in (0.3, 1]); without the
duplicate-free condition a returned score can exceed 1, because no clamp
is applied (see the counterexample).  The route's calculateMatchScore is
clamped above at 1, so every matchScore the POST handler returns is at
most 1. -/
theorem C1_scores_bounded :
    ∀ (embed : String → List ℚ) (ins : AlumniProfile → Option ℝ → String)
      (rand : ℕ → ℚ) (seeker : Seeker) (pool : List AlumniProfile)
      (criteriaOpt : Option (List MatchCriteria)) (limitOpt : Option ℕ)
      (sem : String → String → ℝ) (student : MatchRoute.StudentReq)
      (criteriaOpt2 : Option (List MatchCriteria)) (limitOpt2 : Option ℕ),
      (∀ c ∈ criteriaOpt.getD AlumniMatchingEngine.getDefaultCriteria, 0 ≤ c.weight) →
      (∀ al ∈ pool, ((al.skills.map (fun s => lowerStr s.name)).Nodup)) →
      (∀ m ∈ AlumniMatchingEngine.findMatches embed ins false rand seeker pool
          criteriaOpt limitOpt, ∃ v, m.score = some v ∧ 0 ≤ v ∧ v ≤ 1) ∧
      ∀ m ∈ (MatchRoute.postMatches sem student criteriaOpt2 limitOpt2).getD [],
        m.matchScore ≤ 1 := by
  intro embed ins rand seeker pool criteriaOpt limitOpt sem student criteriaOpt2 limitOpt2
    hw hn
  constructor
  · intro m hm
    obtain ⟨⟨al, hal, heq⟩, hpass⟩ := AlumniMatchingEngine.mem_findMatches_success hm
    obtain ⟨v, hv, h03⟩ := (AlumniMatchingEngine.scorePasses_iff m).1 hpass
    refine ⟨v, hv, le_of_lt (lt_trans (by norm_num) h03), ?_⟩
    rw [← heq] at hv
    exact AlumniMatchingEngine.calculateMatch_score_le_one embed ins seeker al
      (criteriaOpt.getD AlumniMatchingEngine.getDefaultCriteria)
      (embed (AlumniMatchingEngine.createProfileText seeker)) hw (hn al hal) v hv
  · intro m hm
    obtain ⟨al, hal, heq⟩ := MatchRoute.mem_postMatches_getD hm
    rw [heq]
    exact MatchRoute.calculateMatchScore_le_one sem student al _

/-- C1 witness: the bounds at a concrete demo-provider scenario with the
default criteria and a duplicate-free candidate. -/
theorem C1_scores_bounded_witness :
    (∀ m ∈ AlumniMatchingEngine.findMatches AlumniMatchingEngine.getMockEmbedding insEmpty
        false randZero sfSeeker [bostonAlumni] none none,
      ∃ v, m.score = some v ∧ 0 ≤ v ∧ v ≤ 1) ∧
      ∀ m ∈ (MatchRoute.postMatches semZero farStudent none none).getD [],
        m.matchScore ≤ 1 :=
  C1_scores_bounded AlumniMatchingEngine.getMockEmbedding insEmpty randZero sfSeeker
    [bostonAlumni] none none semZero farStudent none none
    (by norm_num [AlumniMatchingEngine.getDefaultCriteria, List.forall_mem_cons])
    (by simp [bostonAlumni])

/-- C2 counterexample: the POST handler applies no 0.3 admission
threshold: with a weight-1 geographic criterion and a student located in
no enumerated region, a candidate scoring 0.2 appears in the returned
list. -/
theorem C2_counterexample :
    ∃ l, MatchRoute.postMatches semZero farStudent (some geoOnlyCriteria) none = some l ∧
      ∃ m ∈ l, m.matchScore < 0.3 := by
  have hname : farStudent.name ≠ "" := by decide
  have hsome : ∃ l, MatchRoute.postMatches semZero farStudent (some geoOnlyCriteria) none =
      some l := by
    unfold MatchRoute.postMatches
    rw [if_neg hname]
    exact ⟨_, rfl⟩
  obtain ⟨l, hl⟩ := hsome
  refine ⟨l, hl, ?_⟩
  have hmem := MatchRoute.mem_postMatches hl
    (show MatchRoute.sarahChen ∈ MatchRoute.mockAlumni from by
      simp [MatchRoute.mockAlumni])
    (show MatchRoute.mockAlumni.length ≤ (none : Option ℕ).getD 10 from by
      simp [MatchRoute.mockAlumni])
  refine ⟨_, hmem, ?_⟩
  show MatchRoute.calculateMatchScore semZero farStudent MatchRoute.sarahChen
    ((some geoOnlyCriteria).getD MatchRoute.defaultCriteria) < 0.3
  have hgeo : MatchRoute.calculateGeographicProximity farStudent.location
      MatchRoute.sarahChen.location = 0.2 := by
    unfold MatchRoute.calculateGeographicProximity
    dsimp only
    rw [if_neg (by decide), if_neg (by decide), if_neg (by decide)]
  unfold MatchRoute.calculateMatchScore
  rw [Option.getD_some]
  simp only [geoOnlyCriteria, List.foldl_cons, List.foldl_nil]
  rw [hgeo]
  push_cast
  rw [min_def]
  norm_num

/-- C2 amended: findMatches returns at most limit (default 10) matches
and every returned match cleared the strict 0.3 threshold; the route's
POST handler also returns at most limit (default 10) matches but applies
no threshold at all (see the counterexample). -/
theorem C2_limit_and_threshold :
    ∀ (embed : String → List ℚ) (ins : AlumniProfile → Option ℝ → String)
      (rand : ℕ → ℚ) (seeker : Seeker) (pool : List AlumniProfile)
      (criteriaOpt : Option (List MatchCriteria)) (limitOpt : Option ℕ)
      (sem : String → String → ℝ) (student : MatchRoute.StudentReq)
      (criteriaOpt2 : Option (List MatchCriteria)) (limitOpt2 : Option ℕ),
      (AlumniMatchingEngine.findMatches embed ins false rand seeker pool criteriaOpt
          limitOpt).length ≤ limitOpt.getD 10 ∧
      (∀ m ∈ AlumniMatchingEngine.findMatches embed ins false rand seeker pool criteriaOpt
          limitOpt, ∃ v, m.score = some v ∧ 0.3 < v) ∧
      ((MatchRoute.postMatches sem student criteriaOpt2 limitOpt2).getD []).length ≤
        limitOpt2.getD 10 := by
  intro embed ins rand seeker pool criteriaOpt limitOpt sem student criteriaOpt2 limitOpt2
  refine ⟨AlumniMatchingEngine.length_findMatches_le embed ins rand seeker pool criteriaOpt
    limitOpt, ?_, MatchRoute.length_postMatches_le sem student criteriaOpt2 limitOpt2⟩
  intro m hm
  exact (AlumniMatchingEngine.scorePasses_iff m).1
    (AlumniMatchingEngine.mem_findMatches_success hm).2

/-- C2 witness: the limits and threshold at a concrete scenario. -/
theorem C2_limit_and_threshold_witness :
    (AlumniMatchingEngine.findMatches AlumniMatchingEngine.getMockEmbedding insEmpty false
        randZero sfSeeker [bostonAlumni] none none).length ≤ 10 ∧
      (∀ m ∈ AlumniMatchingEngine.findMatches AlumniMatchingEngine.getMockEmbedding
          insEmpty false randZero sfSeeker [bostonAlumni] none none,
        ∃ v, m.score = some v ∧ 0.3 < v) ∧
      ((MatchRoute.postMatches semZero farStudent none none).getD []).length ≤ 10 :=
  C2_limit_and_threshold AlumniMatchingEngine.getMockEmbedding insEmpty randZero sfSeeker
    [bostonAlumni] none none semZero farStudent none none

theorem remote_geo (i : String) :
    AlumniMatchingEngine.calculateGeographicProximity remoteSeeker (remoteAlumni i) = 1.0 := by
  unfold AlumniMatchingEngine.calculateGeographicProximity
  dsimp only
  have h1 : AlumniMatchingEngine.extractLocation remoteSeeker = "Remote" := rfl
  have h2 : (remoteAlumni i).workLocation.getD "" = "Remote" := rfl
  rw [h1, h2]
  rw [if_neg (by decide), if_pos rfl]

theorem remote_match_score (i : String) :
    (AlumniMatchingEngine.calculateMatch AlumniMatchingEngine.getMockEmbedding insEmpty
      remoteSeeker (remoteAlumni i) geoOnlyCriteria
      (AlumniMatchingEngine.getMockEmbedding
        (AlumniMatchingEngine.createProfileText remoteSeeker))).score = some 1 := by
  have hc : AlumniMatchingEngine.calculateCosineSimilarity
      (AlumniMatchingEngine.getMockEmbedding
        (AlumniMatchingEngine.createProfileText remoteSeeker))
      (AlumniMatchingEngine.getMockEmbedding
        (AlumniMatchingEngine.createProfileText (Seeker.alum (remoteAlumni i)))) =
      some 1 := by
    have h1 : AlumniMatchingEngine.createProfileText remoteSeeker = "Design" := rfl
    have h2 : AlumniMatchingEngine.createProfileText (Seeker.alum (remoteAlumni i)) =
        "Design" := rfl
    rw [h1, h2]
    exact AlumniMatchingEngine.calculateCosineSimilarity_self
      (AlumniMatchingEngine.sumSq_getMockEmbedding_pos "Design").ne'
  have hts : (AlumniMatchingEngine.runCriteria remoteSeeker (remoteAlumni i)
      geoOnlyCriteria).totalScore = 1 := by
    simp only [AlumniMatchingEngine.runCriteria, geoOnlyCriteria, List.foldl_cons,
      List.foldl_nil, AlumniMatchingEngine.criterionStep_totalScore,
      AlumniMatchingEngine.criterionScore, remote_geo i]
    norm_num
  have htw : (AlumniMatchingEngine.runCriteria remoteSeeker (remoteAlumni i)
      geoOnlyCriteria).totalWeight = 1 := by
    simp only [AlumniMatchingEngine.runCriteria, geoOnlyCriteria, List.foldl_cons,
      List.foldl_nil, AlumniMatchingEngine.criterionStep_totalWeight]
    norm_num
  unfold AlumniMatchingEngine.calculateMatch
  dsimp only
  rw [hc, Option.map_some']
  rw [if_pos (by rw [htw]; norm_num)]
  rw [hts, htw]
  simp only [Option.some.injEq]
  push_cast
  norm_num

theorem remote_run (i j : String) :
    AlumniMatchingEngine.findMatches AlumniMatchingEngine.getMockEmbedding insEmpty false
      randZero remoteSeeker [remoteAlumni i, remoteAlumni j] (some geoOnlyCriteria) none =
    [AlumniMatchingEngine.calculateMatch AlumniMatchingEngine.getMockEmbedding insEmpty
        remoteSeeker (remoteAlumni i) geoOnlyCriteria
        (AlumniMatchingEngine.getMockEmbedding
          (AlumniMatchingEngine.createProfileText remoteSeeker)),
     AlumniMatchingEngine.calculateMatch AlumniMatchingEngine.getMockEmbedding insEmpty
        remoteSeeker (remoteAlumni j) geoOnlyCriteria
        (AlumniMatchingEngine.getMockEmbedding
          (AlumniMatchingEngine.createProfileText remoteSeeker))] := by
  rw [AlumniMatchingEngine.findMatches_success_eq]
  simp only [Option.getD_some, Option.getD_none, List.map_cons, List.map_nil]
  have hp_i : AlumniMatchingEngine.scorePasses
      (AlumniMatchingEngine.calculateMatch AlumniMatchingEngine.getMockEmbedding insEmpty
        remoteSeeker (remoteAlumni i) geoOnlyCriteria
        (AlumniMatchingEngine.getMockEmbedding
          (AlumniMatchingEngine.createProfileText remoteSeeker))) = true := by
    rw [AlumniMatchingEngine.scorePasses_iff]
    exact ⟨1, remote_match_score i, by norm_num⟩
  have hp_j : AlumniMatchingEngine.scorePasses
      (AlumniMatchingEngine.calculateMatch AlumniMatchingEngine.getMockEmbedding insEmpty
        remoteSeeker (remoteAlumni j) geoOnlyCriteria
        (AlumniMatchingEngine.getMockEmbedding
          (AlumniMatchingEngine.createProfileText remoteSeeker))) = true := by
    rw [AlumniMatchingEngine.scorePasses_iff]
    exact ⟨1, remote_match_score j, by norm_num⟩
  rw [List.filter_cons_of_pos hp_i, List.filter_cons_of_pos hp_j, List.filter_nil]
  have hsv : ∀ k : String, AlumniMatchingEngine.scoreValue
      (AlumniMatchingEngine.calculateMatch AlumniMatchingEngine.getMockEmbedding insEmpty
        remoteSeeker (remoteAlumni k) geoOnlyCriteria
        (AlumniMatchingEngine.getMockEmbedding
          (AlumniMatchingEngine.createProfileText remoteSeeker))) = 1 := by
    intro k
    unfold AlumniMatchingEngine.scoreValue
    rw [remote_match_score k]
    rfl
  have hle : AlumniMatchingEngine.matchLe
      (AlumniMatchingEngine.calculateMatch AlumniMatchingEngine.getMockEmbedding insEmpty
        remoteSeeker (remoteAlumni i) geoOnlyCriteria
        (AlumniMatchingEngine.getMockEmbedding
          (AlumniMatchingEngine.createProfileText remoteSeeker)))
      (AlumniMatchingEngine.calculateMatch AlumniMatchingEngine.getMockEmbedding insEmpty
        remoteSeeker (remoteAlumni j) geoOnlyCriteria
        (AlumniMatchingEngine.getMockEmbedding
          (AlumniMatchingEngine.createProfileText remoteSeeker))) = true := by
    unfold AlumniMatchingEngine.matchLe
    rw [hsv i, hsv j]
    exact decide_eq_true (le_refl 1)
  rw [List.mergeSort_of_sorted (by simp [List.pairwise_cons, hle])]
  rw [List.take_of_length_le (by simp)]

/-- C3 counterexample: two candidates with identical profiles (and hence
exactly equal final scores 1) but different ids keep their input order in
the output: the pools [id 2, id 1] and [id 1, id 2] yield the orders
[2, 1] and [1, 2] respectively, so for equal scores the order is the
input order, not a function of the candidate identifier. -/
theorem C3_counterexample :
    (AlumniMatchingEngine.findMatches AlumniMatchingEngine.getMockEmbedding insEmpty false
        randZero remoteSeeker [remoteAlumni "2", remoteAlumni "1"] (some geoOnlyCriteria)
        none).map (fun m => m.alumni.id) = ["2", "1"] ∧
      (AlumniMatchingEngine.findMatches AlumniMatchingEngine.getMockEmbedding insEmpty false
        randZero remoteSeeker [remoteAlumni "1", remoteAlumni "2"] (some geoOnlyCriteria)
        none).map (fun m => m.alumni.id) = ["1", "2"] ∧
      ∀ m ∈ AlumniMatchingEngine.findMatches AlumniMatchingEngine.getMockEmbedding insEmpty
          false randZero remoteSeeker [remoteAlumni "2", remoteAlumni "1"]
          (some geoOnlyCriteria) none, m.score = some 1 := by
  refine ⟨?_, ?_, ?_⟩
  · rw [remote_run "2" "1"]
    rfl
  · rw [remote_run "1" "2"]
    rfl
  · intro m hm
    rw [remote_run "2" "1"] at hm
    rcases List.mem_cons.1 hm with h | h
    · subst h
      exact remote_match_score "2"
    · rcases List.mem_cons.1 h with h2 | h2
      · subst h2
        exact remote_match_score "1"
      · cases h2

/-- C3 amended: the returned match lists of both findMatches and the POST
handler are sorted non-increasing by final score; ties are broken by the
stable sort in input order (not by candidate identifier, see the
counterexample), so the output is deterministic only for identical input
sequences. -/
theorem C3_sorted_non_increasing :
    ∀ (embed : String → List ℚ) (ins : AlumniProfile → Option ℝ → String)
      (rand : ℕ → ℚ) (seeker : Seeker) (pool : List AlumniProfile)
      (criteriaOpt : Option (List MatchCriteria)) (limitOpt : Option ℕ)
      (sem : String → String → ℝ) (student : MatchRoute.StudentReq)
      (criteriaOpt2 : Option (List MatchCriteria)) (limitOpt2 : Option ℕ),
      (AlumniMatchingEngine.findMatches embed ins false rand seeker pool criteriaOpt
          limitOpt).Pairwise (fun a b =>
        AlumniMatchingEngine.scoreValue b ≤ AlumniMatchingEngine.scoreValue a) ∧
      ((MatchRoute.postMatches sem student criteriaOpt2 limitOpt2).getD []).Pairwise
        (fun a b => b.matchScore ≤ a.matchScore) := by
  intro embed ins rand seeker pool criteriaOpt limitOpt sem student criteriaOpt2 limitOpt2
  exact ⟨AlumniMatchingEngine.findMatches_sorted embed ins rand seeker pool criteriaOpt
    limitOpt, MatchRoute.postMatches_sorted sem student criteriaOpt2 limitOpt2⟩

/-- C3 witness: sortedness at a concrete scenario. -/
theorem C3_sorted_non_increasing_witness :
    (AlumniMatchingEngine.findMatches AlumniMatchingEngine.getMockEmbedding insEmpty false
        randZero sfSeeker [bostonAlumni] none none).Pairwise (fun a b =>
      AlumniMatchingEngine.scoreValue b ≤ AlumniMatchingEngine.scoreValue a) ∧
      ((MatchRoute.postMatches semZero farStudent none none).getD []).Pairwise
        (fun a b => b.matchScore ≤ a.matchScore) :=
  C3_sorted_non_increasing AlumniMatchingEngine.getMockEmbedding insEmpty randZero sfSeeker
    [bostonAlumni] none none semZero farStudent none none
